import Mathlib

/-!
# Verification of the legal-document extraction pipeline

A shallow embedding, in Lean 4, of the extraction pipeline of this
repository (`scripts/legal_document_extractor_simple.py`,
`scripts/enhanced_extractor.py`, `scripts/dynamic_metadata_extractor.py`),
together with theorems settling the behavioural claims about it.

The embedding strategy:
* Python strings are Lean `String`s; character-level operations work on
  `List Char`.
* The regular-expression patterns the code hands to Python's `re` module
  are embedded as abstract syntax trees (`RE`) and executed by a
  backtracking matcher (`Re.mrun`) that mirrors CPython's leftmost /
  alternation-order / greedy-vs-lazy preference semantics for the feature
  subset those patterns use.  Character classes such as `\s`, `\d`, `\w`
  are modelled on their ASCII cores plus the non-ASCII whitespace
  characters the code explicitly manipulates.
* Machine integers are `Int`/`Nat` (none of the arithmetic here can
  overflow in Python anyway), the jittered backoff is over `ℚ`.
* Fallible code returns `Option`.
* Dictionaries that cross the JSON boundary are the inductive `JVal`.
-/

namespace LegalExtract

/-! ## Python string primitives -/

/-- Python's `str.isspace`/regex-`\s` character set: ASCII whitespace plus
the Unicode whitespace characters relevant to the corpus (NBSP etc.). -/
def pyIsSpace (c : Char) : Bool :=
  c = ' ' || c = '\t' || c = '\n' || c = '\x0d' || c = '\x0b' || c = '\x0c' ||
  c = '\x1c' || c = '\x1d' || c = '\x1e' || c = '\x1f' || c = '\x85' ||
  c = '\xa0' || c = Char.ofNat 0x1680 ||
  (Char.ofNat 0x2000 ≤ c && c ≤ Char.ofNat 0x200a) ||
  c = Char.ofNat 0x2028 || c = Char.ofNat 0x2029 || c = Char.ofNat 0x202f ||
  c = Char.ofNat 0x205f || c = Char.ofNat 0x3000

/-- regex `\d` (ASCII digits; the corpus contains no other digits). -/
def pyIsDigit (c : Char) : Bool := '0' ≤ c && c ≤ '9'

/-- regex word character (`\b` boundary test): `[A-Za-z0-9_]`. -/
def pyIsWord (c : Char) : Bool :=
  ('a' ≤ c && c ≤ 'z') || ('A' ≤ c && c ≤ 'Z') || pyIsDigit c || c = '_'

/-- ASCII lower-casing, as Python's `str.lower` acts on this corpus. -/
def pyLowerChar (c : Char) : Char :=
  if 'A' ≤ c && c ≤ 'Z' then Char.ofNat (c.toNat + 32) else c

def pyUpperChar (c : Char) : Char :=
  if 'a' ≤ c && c ≤ 'z' then Char.ofNat (c.toNat - 32) else c

def pyLower (s : String) : String := ⟨s.data.map pyLowerChar⟩

/-- Python `str.strip()` (no argument): remove leading/trailing whitespace. -/
def pyStripList (l : List Char) : List Char :=
  ((l.dropWhile pyIsSpace).reverse.dropWhile pyIsSpace).reverse

def pyStrip (s : String) : String := ⟨pyStripList s.data⟩

/-- Python `str.strip(chars)`: remove leading/trailing characters drawn
from `cs`. -/
def pyStripChars (cs : List Char) (s : String) : String :=
  ⟨((s.data.dropWhile (cs.contains ·)).reverse.dropWhile (cs.contains ·)).reverse⟩

/-- Python `str.rstrip(chars)`. -/
def pyRStripChars (cs : List Char) (s : String) : String :=
  ⟨(s.data.reverse.dropWhile (cs.contains ·)).reverse⟩

/-- Python substring containment (`needle in hay`). -/
def pyIn (needle hay : String) : Bool := decide (needle.data <:+: hay.data)

/-- Python `str.split(sep)` for a single-character separator (keeps empty
pieces, as Python does). -/
def pySplitChar (sep : Char) (s : String) : List String :=
  (go s.data [] []).reverse
where
  go : List Char → List Char → List String → List String
    | [], cur, acc => (⟨cur.reverse⟩ : String) :: acc
    | c :: cs, cur, acc =>
      if c = sep then go cs [] ((⟨cur.reverse⟩ : String) :: acc)
      else go cs (c :: cur) acc

/-! ## Regular expressions

AST and backtracking matcher for the pattern subset used by the sources:
literals, character classes, `.`, anchors, `\b`, lookahead, single-char
lookbehind, alternation, concatenation, capture groups and the four
quantifiers in greedy and lazy form.  `mrun` returns the candidate
`(end-position, captures)` pairs in CPython's backtracking preference
order; a search takes the head of the first non-empty candidate list. -/

/-- One item of a character class. -/
inductive ClsItem : Type
  | ch (c : Char)
  | range (lo hi : Char)
  | space       -- `\s`
  | digit       -- `\d`
  deriving Repr

/-- Regular-expression AST. -/
inductive RE : Type
  | eps
  | lit (c : Char)
  | cls (neg : Bool) (items : List ClsItem)
  | anyCh                         -- `.`
  | bol                           -- `^`
  | eol                           -- `$`
  | wordB                         -- `\b`
  | lookAhead (r : RE)            -- `(?=r)`
  | lookBehindCh (c : Char)       -- `(?<=c)`, single-char lookbehind
  | cat (a b : RE)
  | alt (a b : RE)
  | group (idx : Nat) (r : RE)
  | star (greedy : Bool) (r : RE)
  | opt (greedy : Bool) (r : RE)
  deriving Repr

namespace RE

/-- `r+` (greedy or lazy) desugars to `r · r*`. -/
def plus (greedy : Bool) (r : RE) : RE := cat r (star greedy r)

/-- `r{n,}` (greedy) desugars to n copies of `r` followed by `r*`. -/
def repAtLeast : Nat → RE → RE
  | 0, r => star true r
  | n + 1, r => cat r (repAtLeast n r)

/-- Literal string. -/
def str (s : String) : RE := s.data.foldr (fun c acc => cat (lit c) acc) eps

end RE

structure ReFlags where
  ignoreCase : Bool := false
  dotAll : Bool := false
  multiline : Bool := false
  deriving Repr

def clsItemHas (it : ClsItem) (c : Char) : Bool :=
  match it with
  | .ch d => c = d
  | .range lo hi => lo ≤ c && c ≤ hi
  | .space => pyIsSpace c
  | .digit => pyIsDigit c

def clsHasPlain (items : List ClsItem) (c : Char) : Bool :=
  items.any (clsItemHas · c)

/-- Class membership honouring `re.IGNORECASE` (CPython matches a char if
either case-variant is in the class). -/
def clsHas (fl : ReFlags) (neg : Bool) (items : List ClsItem) (c : Char) : Bool :=
  let base :=
    clsHasPlain items c ||
      (fl.ignoreCase &&
        (clsHasPlain items (pyLowerChar c) || clsHasPlain items (pyUpperChar c)))
  if neg then !base else base

def litMatches (fl : ReFlags) (p c : Char) : Bool :=
  p = c || (fl.ignoreCase && pyLowerChar p = pyLowerChar c)

/-- Captures: `(group index, start, stop)`, most recent first. -/
abbrev Caps := List (Nat × Nat × Nat)

def capLookup (caps : Caps) (idx : Nat) : Option (Nat × Nat) :=
  match caps.find? (fun t => t.1 = idx) with
  | some (_, s, e) => some (s, e)
  | none => none

/-- Size of a pattern (used to compute an adequate fuel bound). -/
def RE.size : RE → Nat
  | .eps | .lit _ | .cls _ _ | .anyCh | .bol | .eol | .wordB
  | .lookBehindCh _ => 1
  | .lookAhead r => r.size + 1
  | .cat a b => a.size + b.size + 1
  | .alt a b => a.size + b.size + 1
  | .group _ r => r.size + 1
  | .star _ r => r.size + 1
  | .opt _ r => r.size + 1

/-- The backtracking matcher.  Result: list of `(end position, captures)`
in CPython's preference order.  Recursion is structural on `fuel`, which
every call decrements; callers pass `mrunFuel`, which dominates the
maximal call depth (the depth of one path is bounded by the pattern size
per `star` unrolling and a `star` unrolls at most once per input
character, since an iteration matching no character does not recurse —
CPython's empty-repeat rule).  Exhausted fuel — unreachable from the
entry points below — yields no match. -/
def Re.mrun (fl : ReFlags) (s : Array Char) :
    Nat → RE → Nat → Caps → List (Nat × Caps)
  | 0, _, _, _ => []
  | fuel + 1, re, pos, caps =>
    match re with
    | .eps => [(pos, caps)]
    | .lit c =>
      if h : pos < s.size then
        if litMatches fl c s[pos] then [(pos + 1, caps)] else []
      else []
    | .cls neg items =>
      if h : pos < s.size then
        if clsHas fl neg items s[pos] then [(pos + 1, caps)] else []
      else []
    | .anyCh =>
      if h : pos < s.size then
        if fl.dotAll || s[pos] ≠ '\n' then [(pos + 1, caps)] else []
      else []
    | .bol =>
      if pos = 0 then [(pos, caps)]
      else if h : pos - 1 < s.size then
        if fl.multiline && s[pos - 1] = '\n' then [(pos, caps)] else []
      else []
    | .eol =>
      if pos = s.size then [(pos, caps)]
      else if h : pos < s.size then
        if s[pos] = '\n' && (fl.multiline || pos + 1 = s.size) then [(pos, caps)]
        else []
      else []
    | .wordB =>
      let left := if h : pos - 1 < s.size then pos ≠ 0 && pyIsWord s[pos - 1] else false
      let right := if h : pos < s.size then pyIsWord s[pos] else false
      if left ≠ right then [(pos, caps)] else []
    | .lookAhead r =>
      if (Re.mrun fl s fuel r pos caps).isEmpty then [] else [(pos, caps)]
    | .lookBehindCh c =>
      if h : pos - 1 < s.size then
        if pos ≠ 0 && s[pos - 1] = c then [(pos, caps)] else []
      else []
    | .cat a b =>
      (Re.mrun fl s fuel a pos caps).flatMap fun (p, cp) =>
        Re.mrun fl s fuel b p cp
    | .alt a b =>
      Re.mrun fl s fuel a pos caps ++ Re.mrun fl s fuel b pos caps
    | .group idx r =>
      (Re.mrun fl s fuel r pos caps).map fun (p, cp) => (p, (idx, pos, p) :: cp)
    | .star greedy r =>
      let continued :=
        (Re.mrun fl s fuel r pos caps).flatMap fun (p, cp) =>
          if p = pos then [] else Re.mrun fl s fuel (.star greedy r) p cp
      if greedy then continued ++ [(pos, caps)] else (pos, caps) :: continued
    | .opt greedy r =>
      if greedy then Re.mrun fl s fuel r pos caps ++ [(pos, caps)]
      else (pos, caps) :: Re.mrun fl s fuel r pos caps

/-- Fuel adequate for any match attempt of `r` on `s`. -/
def mrunFuel (s : Array Char) (r : RE) : Nat := (s.size + 2) * (r.size + 2)

/-- A successful match: span plus captures. -/
structure ReMatch where
  start : Nat
  stop : Nat
  caps : Caps
  deriving Repr

/-- `re.search`: scan start positions left to right, take the matcher's
preferred candidate at the first position that matches. -/
def research (fl : ReFlags) (r : RE) (s : String) : Option ReMatch :=
  let arr := s.data.toArray
  (List.range (arr.size + 1)).findSome? fun st =>
    match Re.mrun fl arr (mrunFuel arr r) r st [] with
    | [] => none
    | (e, cp) :: _ => some ⟨st, e, cp⟩

/-- Extract capture group `idx` of a match as a string (`m.group(idx)`;
group 0 is the whole match, which `mrun` does not record, so callers ask
for it via `start`/`stop`). -/
def ReMatch.group (s : String) (m : ReMatch) (idx : Nat) : Option String :=
  match capLookup m.caps idx with
  | some (a, b) => some ⟨(s.data.take b).drop a⟩
  | none => none

/-- Whole matched substring (`m.group(0)`). -/
def ReMatch.matched (s : String) (m : ReMatch) : String :=
  ⟨(s.data.take m.stop).drop m.start⟩

/-- Search restricted to start positions ≥ `from_`. -/
def researchFrom (fl : ReFlags) (r : RE) (arr : Array Char) (from_ : Nat) :
    Option ReMatch :=
  (List.range' from_ (arr.size + 1 - from_)).findSome? fun st =>
    match Re.mrun fl arr (mrunFuel arr r) r st [] with
    | [] => none
    | (e, cp) :: _ => some ⟨st, e, cp⟩

/-- All non-overlapping matches in scan order (`re.finditer`/`findall`
driver; after an empty match the scan advances one position, as CPython
does). -/
def refindAll (fl : ReFlags) (r : RE) (s : String) : List ReMatch :=
  let arr := s.data.toArray
  go arr (arr.size + 2) 0 []
where
  go (arr : Array Char) : Nat → Nat → List ReMatch → List ReMatch
    | 0, _, acc => acc.reverse
    | fuel + 1, pos, acc =>
      if pos > arr.size then acc.reverse
      else
        match researchFrom fl r arr pos with
        | none => acc.reverse
        | some m =>
          go arr fuel (if m.stop = m.start then m.start + 1 else m.stop) (m :: acc)

/-- `re.sub(pattern, repl, s)` for a fixed replacement string (no
back-references: splice `repl` over every non-overlapping match). -/
def resub (fl : ReFlags) (r : RE) (repl : String) (s : String) : String :=
  let ms := refindAll fl r s
  let rec go (pos : Nat) : List ReMatch → List Char
    | [] => s.data.drop pos
    | m :: ms => ((s.data.take m.start).drop pos) ++ repl.data ++ go m.stop ms
  ⟨go 0 ms⟩

/-- `re.split(pattern, s)`: the segments between non-overlapping matches
(none of the patterns used here has a capturing group, so no captured
separators are interleaved). -/
def resplit (fl : ReFlags) (r : RE) (s : String) : List String :=
  let ms := refindAll fl r s
  let rec go (pos : Nat) : List ReMatch → List String
    | [] => [⟨s.data.drop pos⟩]
    | m :: ms => (⟨(s.data.take m.start).drop pos⟩ : String) :: go m.stop ms
  go 0 ms

/-- Sequencing helper for transcribing patterns. -/
def RE.seq (l : List RE) : RE := l.foldr RE.cat RE.eps

/-! ## The patterns of `legal_document_extractor_simple.py`

Each definition below transcribes one regex literal of the source into the
`RE` AST; the comment on each gives the original pattern text. -/

namespace Pat

open RE

/-- `\s` -/
def sp : RE := cls false [.space]
/-- `\d` -/
def dg : RE := cls false [.digit]
/-- `[A-Z]` -/
def az : RE := cls false [.range 'A' 'Z']
/-- `[A-Za-z &.]` (the "Versus" party class) -/
def versusCls : RE := cls false [.range 'A' 'Z', .range 'a' 'z', .ch ' ', .ch '&', .ch '.']
/-- `[A-Za-z\s\.&(),-]` (the traditional party class) -/
def partyCls : RE :=
  cls false [.range 'A' 'Z', .range 'a' 'z', .space, .ch '.', .ch '&', .ch '(',
    .ch ')', .ch ',', .ch '-']
/-- `[A-Za-z\s\.]` (the judge-name class) -/
def nameCls : RE := cls false [.range 'A' 'Z', .range 'a' 'z', .space, .ch '.']
/-- `[A-Za-z0-9\s\-\.\(\)]` (the referred-case party class) -/
def refCls : RE :=
  cls false [.range 'A' 'Z', .range 'a' 'z', .range '0' '9', .space, .ch '-',
    .ch '.', .ch '(', .ch ')']
/-- `[^\n]` -/
def notNl : RE := cls true [.ch '\n']
/-- `[^)]` -/
def notRp : RE := cls true [.ch ')']
/-- `\d{4}` -/
def dg4 : RE := seq [dg, dg, dg, dg]

/-- flags `re.MULTILINE | re.IGNORECASE | re.DOTALL` (party extraction) -/
def flagsMIS : ReFlags := ⟨true, true, true⟩
/-- flags `re.IGNORECASE | re.MULTILINE` (judge extraction) -/
def flagsIM : ReFlags := ⟨true, false, true⟩
/-- flags `re.IGNORECASE` -/
def flagsI : ReFlags := ⟨true, false, false⟩
/-- no flags -/
def flags0 : ReFlags := ⟨false, false, false⟩
/-- flags `re.DOTALL` -/
def flagsS : ReFlags := ⟨false, true, false⟩

/-- `^([A-Z][A-Za-z &.]+?)\s*\n.*?Versus` -/
def ap1 : RE :=
  seq [bol, group 1 (seq [az, plus false versusCls]), star true sp, lit '\n',
    star false anyCh, str "Versus"]
/-- `Petitioners?\s*:\s*([A-Z][A-Za-z\s\.&(),-]+?)(?:\n|$)` -/
def ap2 : RE :=
  seq [str "Petitioner", opt true (lit 's'), star true sp, lit ':', star true sp,
    group 1 (seq [az, plus false partyCls]), alt (lit '\n') eol]
/-- `([A-Z][A-Za-z\s\.&(),-]+?)\s*\.{3,}\s*Petitioners?` -/
def ap3 : RE :=
  seq [group 1 (seq [az, plus false partyCls]), star true sp,
    repAtLeast 3 (lit '.'), star true sp, str "Petitioner", opt true (lit 's')]
/-- `Applicants?\s*:\s*([A-Z][A-Za-z\s\.&(),-]+?)(?:\n|$)` -/
def ap4 : RE :=
  seq [str "Applicant", opt true (lit 's'), star true sp, lit ':', star true sp,
    group 1 (seq [az, plus false partyCls]), alt (lit '\n') eol]
/-- `([A-Z][A-Za-z\s\.&(),-]+?)\s*\.{3,}\s*Applicants?` -/
def ap5 : RE :=
  seq [group 1 (seq [az, plus false partyCls]), star true sp,
    repAtLeast 3 (lit '.'), star true sp, str "Applicant", opt true (lit 's')]
/-- `^\s*\d+\.\s+([A-Z][A-Za-z\s\.&(),-]+?)(?:,\s*(?:having|through|aged))` -/
def ap6 : RE :=
  seq [bol, star true sp, plus true dg, lit '.', plus true sp,
    group 1 (seq [az, plus false partyCls]),
    lit ',', star true sp, alt (str "having") (alt (str "through") (str "aged"))]

/-- The appellant pattern list, in source order. -/
def appellantPats : List RE := [ap1, ap2, ap3, ap4, ap5, ap6]

/-- `Versus\s*\n([A-Z][A-Za-z &.]+)` -/
def rp1 : RE :=
  seq [str "Versus", star true sp, lit '\n', group 1 (seq [az, plus true versusCls])]
/-- `Respondents?\s*:\s*([A-Z][A-Za-z\s\.&(),-]+?)(?:\n|$)` -/
def rp2 : RE :=
  seq [str "Respondent", opt true (lit 's'), star true sp, lit ':', star true sp,
    group 1 (seq [az, plus false partyCls]), alt (lit '\n') eol]
/-- `([A-Z][A-Za-z\s\.&(),-]+?)\s*\.{3,}\s*Respondents?` -/
def rp3 : RE :=
  seq [group 1 (seq [az, plus false partyCls]), star true sp,
    repAtLeast 3 (lit '.'), star true sp, str "Respondent", opt true (lit 's')]
/-- `[Vv]ersus\s*\n\s*([A-Z][A-Za-z\s\.&(),-]+?)(?=\s*(?:\n|through|$))` -/
def rp4 : RE :=
  seq [cls false [.ch 'V', .ch 'v'], str "ersus", star true sp, lit '\n',
    star true sp, group 1 (seq [az, plus false partyCls]),
    lookAhead (seq [star true sp, alt (lit '\n') (alt (str "through") eol)])]

/-- The respondent pattern list, in source order. -/
def respondentPats : List RE := [rp1, rp2, rp3, rp4]

/-- `(?:\s*,?\s*J\.)?` (shared tail of the judge patterns) -/
def jTail : RE := opt true (seq [star true sp, opt true (lit ','), star true sp, str "J."])
/-- `(?:[,\n]|$)` -/
def endComma : RE := alt (cls false [.ch ',', .ch '\n']) eol

/-- `HON\'?BLE\s+(?:MR\.|MRS\.|MS\.)?\s*JUSTICE\s+([A-Z][A-Za-z\s\.]+?)(?:\s*,?\s*J\.)?(?:[,\n]|$)` -/
def jp1 : RE :=
  seq [str "HON", opt true (lit '\''), str "BLE", plus true sp,
    opt true (alt (str "MR.") (alt (str "MRS.") (str "MS."))), star true sp,
    str "JUSTICE", plus true sp, group 1 (seq [az, plus false nameCls]),
    jTail, endComma]
/-- `CORAM\s*:\s*([A-Z][A-Za-z\s\.]+?)(?:\s*,?\s*J\.)?(?:[,\n]|$)` -/
def jp2 : RE :=
  seq [str "CORAM", star true sp, lit ':', star true sp,
    group 1 (seq [az, plus false nameCls]), jTail, endComma]
/-- `Before\s*:\s*([A-Z][A-Za-z\s\.]+?)(?:\s*,?\s*J\.)?(?:[,\n]|$)` -/
def jp3 : RE :=
  seq [str "Before", star true sp, lit ':', star true sp,
    group 1 (seq [az, plus false nameCls]), jTail, endComma]

/-- The judge pattern list of `_extract_judge_regex`, in source order. -/
def judgePats : List RE := [jp1, jp2, jp3]

/-- `(?:HONBLE|HON\'BLE|MR\.|MRS\.|MS\.|JUSTICE)\s*` -/
def jSub1 : RE :=
  seq [alt (str "HONBLE") (alt (str "HON'BLE") (alt (str "MR.")
    (alt (str "MRS.") (alt (str "MS.") (str "JUSTICE"))))), star true sp]
/-- `,?\s*J\.?(\s*\([^)]*\))?$` -/
def jSub2 : RE :=
  seq [opt true (lit ','), star true sp, lit 'J', opt true (lit '.'),
    opt true (group 1 (seq [star true sp, lit '(', star true notRp, lit ')'])), eol]

/-- Shared head `{w1}\s+{w2}\s+` of the three case-number patterns. -/
def ciHead (w1 w2 : String) : RE := seq [str w1, plus true sp, str w2, plus true sp]
/-- `(Writ\s+Petition\s+No\.?\s*\d+\s*/\s*\d{4}[^\n]*)` -/
def ci1 : RE :=
  group 1 (seq [ciHead "Writ" "Petition", str "No", opt true (lit '.'),
    star true sp, plus true dg, star true sp, lit '/', star true sp, dg4,
    star true notNl])
/-- `(Civil\s+Appeal\s+No\.?\s*\d+\s*/\s*\d{4}[^\n]*)` -/
def ci2 : RE :=
  group 1 (seq [ciHead "Civil" "Appeal", str "No", opt true (lit '.'),
    star true sp, plus true dg, star true sp, lit '/', star true sp, dg4,
    star true notNl])
/-- `(Criminal\s+Appeal\s+No\.?\s*\d+\s*/\s*\d{4}[^\n]*)` -/
def ci3 : RE :=
  group 1 (seq [ciHead "Criminal" "Appeal", str "No", opt true (lit '.'),
    star true sp, plus true dg, star true sp, lit '/', star true sp, dg4,
    star true notNl])

def caseInfoPats : List RE := [ci1, ci2, ci3]

/-- `(\d+)\s*/\s*(\d{4})` -/
def numYear : RE :=
  seq [group 1 (plus true dg), star true sp, lit '/', star true sp, group 2 dg4]

/-- `([A-Z][A-Za-z0-9\s\-\.\(\)]+?\b(?:v\.?|vs\.?|Vs\.?|VS\.?|\-vs\-)[A-Z][A-Za-z0-9\s\-\.\(\)]+?)\s*,\s*\(([^)]*)\)` -/
def caseRefPat : RE :=
  seq [group 1 (seq [az, plus false refCls, wordB,
      alt (seq [lit 'v', opt true (lit '.')])
        (alt (seq [str "vs", opt true (lit '.')])
          (alt (seq [str "Vs", opt true (lit '.')])
            (alt (seq [str "VS", opt true (lit '.')]) (str "-vs-")))),
      az, plus false refCls]),
    star true sp, lit ',', star true sp, lit '(', group 2 (star true notRp),
    lit ')']

/-- `\{.*\}` (JSON-object narrowing in `_extract_with_openai`, DOTALL) -/
def bracePat : RE := seq [lit '{', star true anyCh, lit '}']
/-- `\[.*\]` (JSON-array narrowing in `_extract_referred_cases_with_ai`, DOTALL) -/
def bracketPat : RE := seq [lit '[', star true anyCh, lit ']']

/-- `\n\s*\n|(?<=\.)\s*\n` (paragraph split in `_extract_from_pdf`) -/
def paraSplitPat : RE :=
  alt (seq [lit '\n', star true sp, lit '\n'])
    (seq [lookBehindCh '.', star true sp, lit '\n'])

/-- `make_high_court_pattern(state)`:
`high court\b[^\n]*?{state}\b|{state}\b[^\n]*?high court\b` -/
def hcPat (state : String) : RE :=
  alt (seq [str "high court", wordB, star false notNl, str state, wordB])
    (seq [str state, wordB, star false notNl, str "high court", wordB])

/-- `supreme court.*of india|supreme court of india` -/
def supremePat : RE :=
  alt (seq [str "supreme court", star true anyCh, str "of india"])
    (str "supreme court of india")

end Pat

/-! ## JSON-ish dictionary values

The records the extractor builds (and the objects `json.loads` returns)
are modelled by `JVal`.  Python `None` is `JVal.null`. -/

inductive JVal : Type
  | null
  | bool (b : Bool)
  | num (n : Int)
  | str (s : String)
  | arr (xs : List JVal)
  | obj (kvs : List (String × JVal))

namespace JVal

def jlookup (kvs : List (String × JVal)) (k : String) : Option JVal :=
  (kvs.find? (·.1 = k)).map (·.2)

def get? (v : JVal) (k : String) : Option JVal :=
  match v with
  | .obj kvs => jlookup kvs k
  | _ => none

/-- Python `d.get(k, default)`. -/
def getD (v : JVal) (k : String) (dflt : JVal) : JVal := (v.get? k).getD dflt

def setKV : List (String × JVal) → String → JVal → List (String × JVal)
  | [], k, v => [(k, v)]
  | (k', v') :: rest, k, v =>
    if k' = k then (k, v) :: rest else (k', v') :: setKV rest k v

/-- Python `d[k] = v` (our object key lists are duplicate-free by
construction; a non-object receiver is returned unchanged — the modelled
flows never reach that case). -/
def set (o : JVal) (k : String) (v : JVal) : JVal :=
  match o with
  | .obj kvs => .obj (setKV kvs k v)
  | other => other

def hasKey (v : JVal) (k : String) : Bool := (v.get? k).isSome

/-- Observer used by the theorems: the string at a top-level key (empty
when absent or not a string). -/
def getStr (v : JVal) (k : String) : String :=
  match v.get? k with
  | some (.str s) => s
  | _ => ""

def isNullAt (v : JVal) (k : String) : Bool :=
  match v.get? k with
  | some .null => true
  | _ => false

/-- Python truthiness. -/
def truthy : JVal → Bool
  | .null => false
  | .bool b => b
  | .num n => n ≠ 0
  | .str s => s ≠ ""
  | .arr xs => !xs.isEmpty
  | .obj kvs => !kvs.isEmpty

mutual

/-- No leaf of the value is `null` (objects/arrays recurse). -/
def leavesNonNull : JVal → Bool
  | .null => false
  | .bool _ => true
  | .num _ => true
  | .str _ => true
  | .arr xs => leavesListNN xs
  | .obj kvs => leavesObjNN kvs

def leavesListNN : List JVal → Bool
  | [] => true
  | x :: xs => leavesNonNull x && leavesListNN xs

def leavesObjNN : List (String × JVal) → Bool
  | [] => true
  | (_, v) :: kvs => leavesNonNull v && leavesObjNN kvs

end

end JVal

/-! ## `_clean_text` (lines 1118–1134)

`re.sub(r'\s+', ' ', text)` collapses every maximal whitespace run into a
single space; `collapseWs` is that substitution written directly as a
character-list traversal.  The subsequent `str.replace` calls each swap
one non-whitespace Unicode character for an ASCII one, hence act
character-wise (`cleanChar`); the NBSP replacement is a no-op at that
point because NBSP is regex-whitespace and was already collapsed. -/

mutual

def collapseWs : List Char → List Char
  | [] => []
  | c :: cs =>
    if pyIsSpace c then ' ' :: collapseWsSkip cs else c :: collapseWs cs

/-- Inside a whitespace run whose single replacement space was already
emitted: drop the run's remaining characters. -/
def collapseWsSkip : List Char → List Char
  | [] => []
  | c :: cs => if pyIsSpace c then collapseWsSkip cs else c :: collapseWs cs

end

/-- The `str.replace` chain of `_clean_text`: `  → ' '`,
`’ → '\''`, `“`/`” → '"'`, `–`/`— → '-'`. -/
def cleanChar (c : Char) : Char :=
  if c = '\xa0' then ' '
  else if c = Char.ofNat 0x2019 then '\''
  else if c = Char.ofNat 0x201c then '"'
  else if c = Char.ofNat 0x201d then '"'
  else if c = Char.ofNat 0x2013 then '-'
  else if c = Char.ofNat 0x2014 then '-'
  else c

/-- `AILegalDocumentExtractor._clean_text`. -/
def cleanText (s : String) : String :=
  if s = "" then ""
  else pyStrip ⟨(collapseWs s.data).map cleanChar⟩

/-! ## The regex-fallback extractors (lines 906–1030) -/

/-- Shared driver: try the patterns in order, return group 1 of the first
match (every pattern in the lists has a group 1 that always participates
in a match). -/
def firstGroup (fl : ReFlags) (pats : List RE) (s : String) : Option String :=
  pats.findSome? fun p => (research fl p s).bind fun m => m.group s 1

/-- `_extract_appellant_regex`. -/
def extractAppellantRegex (text : String) : String :=
  match firstGroup Pat.flagsMIS Pat.appellantPats text with
  | some g => pyStrip g
  | none => "Appellant"

/-- `_extract_respondent_regex`. -/
def extractRespondentRegex (text : String) : String :=
  match firstGroup Pat.flagsMIS Pat.respondentPats text with
  | some g => pyStrip g
  | none => "Respondents"

/-- `_extract_judge_regex`: first matching pattern's group 1, stripped,
honorifics deleted, a trailing `, J. (…)` suffix deleted, then
`strip().rstrip(',.')`. -/
def extractJudgeRegex (text : String) : String :=
  match firstGroup Pat.flagsIM Pat.judgePats text with
  | some g =>
    let judge := pyStrip g
    let judge := resub Pat.flagsI Pat.jSub1 "" judge
    let judge := resub Pat.flagsI Pat.jSub2 "" judge
    pyRStripChars [',', '.'] (pyStrip judge)
  | none => "none"

/-- `int()` on a (non-empty, all-digit) numeric capture. -/
def strToNat (s : String) : Nat :=
  s.data.foldl (fun a c => a * 10 + (c.toNat - 48)) 0

/-- The `caseHistoryRequest` dictionary built by
`_extract_case_info_regex`. -/
structure CaseInfo where
  caseNumber : String
  decidedDay : String
  decidedMonth : String
  decidedYear : Int
  notes : String
  year : Int
  deriving Repr, DecidableEq

def defaultCaseInfo : CaseInfo :=
  ⟨"1", "1", "1", 2025, "none", 2025⟩

def CaseInfo.toJVal (ci : CaseInfo) : JVal :=
  .obj [("caseNumber", .str ci.caseNumber), ("decidedDay", .str ci.decidedDay),
    ("decidedMonth", .str ci.decidedMonth), ("decidedYear", .num ci.decidedYear),
    ("notes", .str ci.notes), ("year", .num ci.year)]

/-- `_extract_case_info_regex`. -/
def extractCaseInfoRegex (text : String) : CaseInfo :=
  match firstGroup Pat.flagsI Pat.caseInfoPats text with
  | none => defaultCaseInfo
  | some g =>
    let fullSentence := pyStrip g
    match research Pat.flags0 Pat.numYear fullSentence with
    | some m =>
      match m.group fullSentence 1, m.group fullSentence 2 with
      | some caseNumber, some yearStr =>
        let year : Int := strToNat yearStr
        { defaultCaseInfo with
            caseNumber := caseNumber, decidedYear := year, year := year,
            notes := fullSentence }
      | _, _ => { defaultCaseInfo with notes := fullSentence }
    | none => { defaultCaseInfo with notes := fullSentence }

/-- One referred case `{caseNo, partyName}` (regex path: both strings). -/
def refCaseObj (caseNo partyName : String) : JVal :=
  .obj [("caseNo", .str caseNo), ("partyName", .str partyName)]

/-- `strip(' .,:;\n\t')` character set used by `_extract_case_referred`. -/
def refStripSet : List Char := [' ', '.', ',', ':', ';', '\n', '\t']

/-- Deduplication by lower-cased `(caseNo, partyName)` preserving first
occurrences. -/
def dedupRefs : List (String × String) → List (String × String) → List (String × String)
  | [], _ => []
  | (cn, pn) :: rest, seen =>
    let key := (pyLower cn, pyLower pn)
    if seen.contains key then dedupRefs rest seen
    else (cn, pn) :: dedupRefs rest (key :: seen)

/-- `_extract_case_referred`. -/
def extractCaseReferred (text : String) : List (String × String) :=
  let items := (refindAll Pat.flagsI Pat.caseRefPat text).filterMap fun m => do
    let party ← m.group text 1
    let caseNo ← m.group text 2
    let party := pyStripChars refStripSet party
    let caseNo := pyStripChars refStripSet caseNo
    let caseNoVal := if caseNo ≠ "" then "(" ++ caseNo ++ ")" else ""
    pure (caseNoVal, party)
  dedupRefs items []

/-! ## `_map_court_info` (lines 776–837) -/

/-- The `default_court` dictionary (and the shape every return value of
`_map_court_info` has): keys `allJudges`, `courtBenchId`, `courtBranchId`,
`courtId`, `citationCategory`. -/
structure CourtInfo where
  allJudges : String
  courtBenchId : Int
  courtBranchId : String
  courtId : Int
  citationCategory : String
  deriving Repr, DecidableEq

def CourtInfo.toJVal (ci : CourtInfo) : JVal :=
  .obj [("allJudges", .str ci.allJudges), ("courtBenchId", .num ci.courtBenchId),
    ("courtBranchId", .str ci.courtBranchId), ("courtId", .num ci.courtId),
    ("citationCategory", .str ci.citationCategory)]

/-- `default_court`. -/
def defaultCourt : CourtInfo := ⟨"none", 1, "34", 1, ""⟩

/-- One `court_mappings` entry's update payload
`{'courtId': …, 'courtBenchId': …, 'courtBranchId': …, 'citationCategory': …}`. -/
structure CourtUpd where
  courtId : Int
  courtBenchId : Int
  courtBranchId : String
  citationCategory : String
  deriving Repr, DecidableEq

def CourtInfo.update (ci : CourtInfo) (u : CourtUpd) : CourtInfo :=
  { ci with
      courtId := u.courtId
      courtBenchId := u.courtBenchId
      courtBranchId := u.courtBranchId
      citationCategory := u.citationCategory }

/-- The ordered `court_mappings` table (lines 783–814). -/
def courtMappings : List (RE × CourtUpd) :=
  [ (Pat.hcPat "madhya pradesh", ⟨19, 1, "54", "MP"⟩),
    (Pat.hcPat "bombay", ⟨19, 1, "43", "Bom"⟩),
    (Pat.hcPat "delhi", ⟨19, 1, "46", "Del"⟩),
    (Pat.hcPat "calcutta", ⟨19, 1, "44", "Cal"⟩),
    (Pat.hcPat "andhra pradesh", ⟨19, 1, "42", "AP"⟩),
    (Pat.hcPat "gauhati", ⟨19, 1, "47", "Gau"⟩),
    (Pat.hcPat "guwahati", ⟨19, 1, "47", "Gau"⟩),
    (Pat.hcPat "uttarakhand", ⟨19, 1, "65", "Utt"⟩),
    (Pat.hcPat "sikkim", ⟨19, 1, "62", "Sikk"⟩),
    (Pat.hcPat "tripura", ⟨19, 1, "64", "Tri"⟩),
    (Pat.hcPat "patna", ⟨19, 1, "59", "Pat"⟩),
    (Pat.hcPat "manipur", ⟨19, 1, "56", "Mani"⟩),
    (Pat.hcPat "punjab", ⟨19, 1, "60", "P&H"⟩),
    (Pat.hcPat "haryana", ⟨19, 1, "60", "P&H"⟩),
    (Pat.hcPat "madras", ⟨19, 1, "55", "Mad"⟩),
    (Pat.hcPat "jammu", ⟨19, 1, "50", "J&K"⟩),
    (Pat.hcPat "kashmir", ⟨19, 1, "50", "J&K"⟩),
    (Pat.hcPat "jharkhand", ⟨19, 1, "51", "Jhar"⟩),
    (Pat.hcPat "himachal pradesh", ⟨19, 1, "49", "HP"⟩),
    (Pat.hcPat "karnataka", ⟨19, 1, "52", "Kar"⟩),
    (Pat.hcPat "chhattisgarh", ⟨19, 1, "45", "Chh"⟩),
    (Pat.hcPat "kerala", ⟨19, 1, "53", "Ker"⟩),
    (Pat.hcPat "rajasthan", ⟨19, 1, "61", "Raj"⟩),
    (Pat.hcPat "orissa", ⟨19, 1, "58", "Ori"⟩),
    (Pat.hcPat "telangana", ⟨19, 1, "63", "Tel"⟩),
    (Pat.hcPat "meghalaya", ⟨19, 1, "57", "Megh"⟩),
    (Pat.hcPat "gujarat", ⟨19, 1, "48", "Guj"⟩),
    (Pat.hcPat "allahabad", ⟨19, 1, "41", "All"⟩),
    (Pat.supremePat, ⟨1, 1, "34", "SC"⟩) ]

/-- `court_name.lower() if court_name else ""` (a `None` argument and the
empty string both yield `""`). -/
def courtNameLower (courtName : Option String) : String :=
  match courtName with
  | none => ""
  | some s => if s = "" then "" else pyLower s

/-- The Bombay/Aurangabad special case (line 827): both substrings must
occur in the lowered name. -/
def aurangabadCond (cnl : String) : Bool :=
  pyIn "bombay" cnl && pyIn "bench at aurangabad" cnl

/-- `_map_court_info` (the `location` argument is lowered and logged but
never used in the mapping decision; it is kept for signature fidelity). -/
def mapCourtInfo (courtName : Option String) (_location : Option String) : CourtInfo :=
  let cnl := courtNameLower courtName
  if aurangabadCond cnl then defaultCourt.update ⟨19, 1, "43", "Bom"⟩
  else
    match courtMappings.find? (fun e => (research Pat.flagsI e.1 cnl).isSome) with
    | some e => defaultCourt.update e.2
    | none => defaultCourt

/-! ## The assembled records -/

/-- `_create_error_result` (lines 1136–1198).  Note: it has an `error`
key but no `caseReferred` key. -/
def errorResult (errorMsg : String) : JVal :=
  .obj [
    ("docId", .num 0),
    ("appellant", .str "Appellant"),
    ("remarkable", .str "none"),
    ("respondent", .str "Respondents"),
    ("judgeName", .str "none"),
    ("judgementOrder", .str ""),
    ("judgementType", .str "Judgement"),
    ("caseResult", .str "Extraction failed"),
    ("doubleCouncilDetailRequest", .obj [
      ("advocateForRespondent", .str "none"),
      ("advocateForAppellant", .str "none"),
      ("extraCouncilDetails", .str "none")]),
    ("singleCouncilDetailRequest", .null),
    ("courtDetailRequest", .obj [
      ("allJudges", .str "none"), ("courtBenchId", .num 1),
      ("courtBranchId", .str "34"), ("courtId", .num 1),
      ("citationCategory", .str "")]),
    ("citationRequest", .obj [
      ("citationCategoryId", .num 0), ("journalId", .num 0),
      ("otherCitation", .str ""), ("neutralCitation", .str ""),
      ("pageNumber", .str "1"), ("year", .num 2025), ("volume", .str "none"),
      ("secondaryCitationCategoryId", .num 0), ("secondaryJournalId", .num 0),
      ("secondaryPageNumber", .str ""), ("secondaryYear", .str "0"),
      ("secondaryVolume", .str ""), ("thirdCitationCategoryId", .num 0),
      ("thirdJournalId", .num 0), ("thirdPageNumber", .str "none"),
      ("thirdYear", .str "0"), ("thirdVolume", .str "none"),
      ("fourthCitationCategoryId", .num 0), ("fourthJournalId", .num 0),
      ("fourthPageNumber", .str "none"), ("fourthYear", .str "0"),
      ("fourthVolume", .str "none")]),
    ("additionalAppellantRespondentRequestList", .arr []),
    ("caseHistoryRequest", .obj [
      ("caseNumber", .str "1"), ("decidedDay", .str "1"),
      ("decidedMonth", .str "1"), ("decidedYear", .num 2025),
      ("notes", .str "none"), ("year", .num 2025)]),
    ("headNoteRequestList", .arr []),
    ("caseTopics", .arr []),
    ("success", .bool false),
    ("error", .str errorMsg),
    ("extraction_method", .str "Error")]

/-- `_extract_with_regex` (lines 839–904).  Note: it has a `caseReferred`
key but no `error` key, and `extraction_method` is `"Regex fallback"`. -/
def extractWithRegexKvs (text : String) : List (String × JVal) :=
  let appellant := extractAppellantRegex text
  let respondent := extractRespondentRegex text
  let judge := extractJudgeRegex text
  let caseInfo := extractCaseInfoRegex text
  let caseReferred := extractCaseReferred text
  [
    ("docId", .num 0),
    ("appellant", .str appellant),
    ("remarkable", .str "none"),
    ("respondent", .str respondent),
    ("judgeName", .str judge),
    ("judgementOrder", .str ""),
    ("judgementType", .str "Judgement"),
    ("caseResult", .str "Case outcome to be determined"),
    ("doubleCouncilDetailRequest", .obj [
      ("advocateForRespondent", .str "none"),
      ("advocateForAppellant", .str "none"),
      ("extraCouncilDetails", .str "none")]),
    ("singleCouncilDetailRequest", .null),
    ("courtDetailRequest", .obj [
      ("allJudges", .str judge), ("courtBenchId", .num 1),
      ("courtBranchId", .str "34"), ("courtId", .num 1),
      ("citationCategory", .str "")]),
    ("citationRequest", .obj [
      ("citationCategoryId", .num 0), ("journalId", .num 0),
      ("otherCitation", .str ""), ("neutralCitation", .str ""),
      ("pageNumber", .str "1"), ("year", .num caseInfo.year),
      ("volume", .str "none"),
      ("secondaryCitationCategoryId", .num 0), ("secondaryJournalId", .num 0),
      ("secondaryPageNumber", .str ""), ("secondaryYear", .str "0"),
      ("secondaryVolume", .str ""), ("thirdCitationCategoryId", .num 0),
      ("thirdJournalId", .num 0), ("thirdPageNumber", .str "none"),
      ("thirdYear", .str "0"), ("thirdVolume", .str "none"),
      ("fourthCitationCategoryId", .num 0), ("fourthJournalId", .num 0),
      ("fourthPageNumber", .str "none"), ("fourthYear", .str "0"),
      ("fourthVolume", .str "none")]),
    ("additionalAppellantRespondentRequestList", .arr []),
    ("caseHistoryRequest", caseInfo.toJVal),
    ("headNoteRequestList", .arr []),
    ("caseTopics", .arr []),
    ("success", .bool true),
    ("extraction_method", .str "Regex fallback"),
    ("caseReferred", .arr (caseReferred.map fun p => refCaseObj p.1 p.2))]

def extractWithRegex (text : String) : JVal := .obj (extractWithRegexKvs text)

/-! ## `json.loads`, modelled

A recursive-descent parser for the JSON the code consumes.  Success /
failure is faithful to `json.loads` on objects, arrays, strings,
integers, booleans and `null` (including the `NaN`/`Infinity` extensions
and the no-leading-zero and single-trailing-value rules); a number with a
fractional or exponent part parses successfully but only its integer part
is retained (`JVal` has no float constructor; no modelled flow inspects
such a value).  `\uXXXX` string escapes are not modelled (the corpus'
replies are ASCII). -/

def jsonWsChar (c : Char) : Bool := c = ' ' || c = '\t' || c = '\n' || c = '\x0d'

def parseStrBody (acc : List Char) : List Char → Option (String × List Char)
  | [] => none
  | '"' :: rest => some (⟨acc.reverse⟩, rest)
  | '\\' :: e :: rest =>
    let m : Option Char :=
      if e = '"' then some '"' else if e = '\\' then some '\\'
      else if e = '/' then some '/' else if e = 'b' then some '\x08'
      else if e = 'f' then some '\x0c' else if e = 'n' then some '\n'
      else if e = 'r' then some '\x0d' else if e = 't' then some '\t'
      else none
    match m with
    | some c => parseStrBody (c :: acc) rest
    | none => none
  | c :: rest => parseStrBody (c :: acc) rest

/-- Consume an optional `.digits` then optional `e[+-]digits`. -/
def chompNumTail (l : List Char) : Option (List Char) :=
  let step1 : Option (List Char) :=
    match l with
    | '.' :: r =>
      let ds := r.takeWhile pyIsDigit
      if ds.isEmpty then none else some (r.drop ds.length)
    | _ => some l
  match step1 with
  | none => none
  | some l2 =>
    match l2 with
    | 'e' :: r | 'E' :: r =>
      let r2 := match r with
        | '+' :: r' => r'
        | '-' :: r' => r'
        | _ => r
      let ds := r2.takeWhile pyIsDigit
      if ds.isEmpty then none else some (r2.drop ds.length)
    | _ => some l2

def parseNumChars (l : List Char) : Option (JVal × List Char) :=
  let (neg, l1) := match l with
    | '-' :: r => (true, r)
    | _ => (false, l)
  let ds := l1.takeWhile pyIsDigit
  if ds.isEmpty then none
  else if ds.length > 1 && ds.head? = some '0' then none
  else
    match chompNumTail (l1.drop ds.length) with
    | none => none
    | some rest =>
      let n : Int := strToNat ⟨ds⟩
      some (.num (if neg then -n else n), rest)

mutual

def parseVal : Nat → List Char → Option (JVal × List Char)
  | 0, _ => none
  | fuel + 1, l =>
    match l.dropWhile jsonWsChar with
    | 'n' :: 'u' :: 'l' :: 'l' :: rest => some (.null, rest)
    | 't' :: 'r' :: 'u' :: 'e' :: rest => some (.bool true, rest)
    | 'f' :: 'a' :: 'l' :: 's' :: 'e' :: rest => some (.bool false, rest)
    | 'N' :: 'a' :: 'N' :: rest => some (.num 0, rest)
    | 'I' :: 'n' :: 'f' :: 'i' :: 'n' :: 'i' :: 't' :: 'y' :: rest => some (.num 0, rest)
    | '-' :: 'I' :: 'n' :: 'f' :: 'i' :: 'n' :: 'i' :: 't' :: 'y' :: rest =>
      some (.num 0, rest)
    | '"' :: rest => (parseStrBody [] rest).map fun p => (.str p.1, p.2)
    | '[' :: rest => parseArrItems fuel (rest.dropWhile jsonWsChar) []
    | '{' :: rest => parseObjItems fuel (rest.dropWhile jsonWsChar) []
    | l' => parseNumChars l'

def parseArrItems : Nat → List Char → List JVal → Option (JVal × List Char)
  | 0, _, _ => none
  | fuel + 1, l, acc =>
    match l with
    | ']' :: rest => if acc.isEmpty then some (.arr [], rest) else none
    | _ =>
      match parseVal fuel l with
      | none => none
      | some (v, r) =>
        match r.dropWhile jsonWsChar with
        | ',' :: r2 => parseArrItems fuel (r2.dropWhile jsonWsChar) (v :: acc)
        | ']' :: r2 => some (.arr (v :: acc).reverse, r2)
        | _ => none

def parseObjItems : Nat → List Char → List (String × JVal) → Option (JVal × List Char)
  | 0, _, _ => none
  | fuel + 1, l, acc =>
    match l with
    | '}' :: rest => if acc.isEmpty then some (.obj [], rest) else none
    | '"' :: rest =>
      match parseStrBody [] rest with
      | none => none
      | some (k, r) =>
        match r.dropWhile jsonWsChar with
        | ':' :: r2 =>
          match parseVal fuel r2 with
          | none => none
          | some (v, r3) =>
            match r3.dropWhile jsonWsChar with
            | ',' :: r4 =>
              parseObjItems fuel (r4.dropWhile jsonWsChar) (JVal.setKV acc k v)
            | '}' :: r4 => some (.obj (JVal.setKV acc k v), r4)
            | _ => none
        | _ => none
    | _ => none

end

/-- `json.loads` (see the section comment for the modelling boundary). -/
def parseJson (s : String) : Option JVal :=
  match parseVal (2 * s.data.length + 4) s.data with
  | some (v, rest) => if (rest.dropWhile jsonWsChar).isEmpty then some v else none
  | none => none

/-! ## Python `str()` / `repr()` of dictionary values (best-effort: these
renderings feed only placeholder string fields, never a branch). -/

mutual

def pyRepr : JVal → String
  | .null => "None"
  | .bool b => if b then "True" else "False"
  | .num n => toString n
  | .str s => "'" ++ s ++ "'"
  | .arr xs => "[" ++ pyReprList xs ++ "]"
  | .obj kvs => "\x7b" ++ pyReprObj kvs ++ "\x7d"

def pyReprList : List JVal → String
  | [] => ""
  | [x] => pyRepr x
  | x :: xs => pyRepr x ++ ", " ++ pyReprList xs

def pyReprObj : List (String × JVal) → String
  | [] => ""
  | [(k, v)] => "'" ++ k ++ "': " ++ pyRepr v
  | (k, v) :: kvs => "'" ++ k ++ "': " ++ pyRepr v ++ ", " ++ pyReprObj kvs

end

def pyStr : JVal → String
  | .str s => s
  | .num n => toString n
  | .bool b => if b then "True" else "False"
  | .null => "None"
  | v => pyRepr v

/-! ## `datetime.strptime(·, '%Y-%m-%d')`, modelled -/

def isLeapYear (y : Nat) : Bool := (y % 4 = 0 && y % 100 ≠ 0) || y % 400 = 0

def daysInMonth (y m : Nat) : Nat :=
  if m = 2 then (if isLeapYear y then 29 else 28)
  else if m = 4 || m = 6 || m = 9 || m = 11 then 30
  else 31

/-- `Modelled from the spec:` the standard library's `%Y-%m-%d` parse
(the source calls `datetime.strptime`, an external collaborator): three
dash-separated decimal fields with calendar validation; failure raises,
which the source swallows (`except: pass`). -/
def parseYmd (s : String) : Option (Nat × Nat × Nat) :=
  match pySplitChar '-' s with
  | [ys, ms, ds] =>
    if ys ≠ "" && ys.length ≤ 4 && ys.data.all pyIsDigit &&
        ms ≠ "" && ms.length ≤ 2 && ms.data.all pyIsDigit &&
        ds ≠ "" && ds.length ≤ 2 && ds.data.all pyIsDigit then
      let y := strToNat ys
      let m := strToNat ms
      let d := strToNat ds
      if 1 ≤ y && 1 ≤ m && m ≤ 12 && 1 ≤ d && d ≤ daysInMonth y m then
        some (y, m, d)
      else none
    else none
  | _ => none

/-! ## `_format_ai_result` (lines 637–774)

Python raises inside this function in exactly five situations (the parsed
reply is not a dict; `', '.join` meets a non-string party element;
`raw_judge.split` on a truthy non-`'none'` non-string; `.lower()` on a
truthy non-string court name; iterating a truthy non-iterable
`caseReferred`).  `_extract_with_openai` turns any such exception into
`None`, so the model splits the function into a raise predicate
(`formatAiFails`) and the total value builder (`formatAiCore`); their
combination `formatAiResult` is the behaviour observable from the
caller. -/

namespace JVal

/-- Python `a or b`. -/
def pyOrElse (a b : JVal) : JVal := if a.truthy then a else b

def isStr : JVal → Bool
  | .str _ => true
  | _ => false

/-- Python `v == "lit"` for a known string literal. -/
def strEq (v : JVal) (s : String) : Bool :=
  match v with
  | .str t => t = s
  | _ => false

end JVal

/-- `appellants = ai_data.get('appellants') or ai_data.get('appellant') or []`
(and the respondent twin). -/
def partiesOf (d : JVal) (k1 k2 : String) : JVal :=
  (d.getD k1 .null).pyOrElse ((d.getD k2 .null).pyOrElse (.arr []))

/-- `', '.join(...)` raises on a non-string element. -/
def joinFails : List JVal → Bool
  | [] => false
  | .str _ :: xs => joinFails xs
  | _ => true

def joinVals (sep : String) : List JVal → String
  | [] => ""
  | [v] => (match v with | .str s => s | _ => "")
  | v :: vs => (match v with | .str s => s | _ => "") ++ sep ++ joinVals sep vs

/-- `', '.join(appellants) if appellants else "Appellant"` /
`str(appellants) if appellants else "Appellant"`. -/
def partyString (v : JVal) (dflt : String) : String :=
  match v with
  | .arr xs => if xs.isEmpty then dflt else joinVals ", " xs
  | v => if v.truthy then pyStr v else dflt

def partyFails : JVal → Bool
  | .arr xs => !xs.isEmpty && joinFails xs
  | _ => false

/-- Is `for item in v` legal in Python (the kinds `json.loads` can
produce)?  Strings iterate their characters, dicts their keys. -/
def crIterable : JVal → Option (List JVal)
  | .arr xs => some xs
  | .str s => some (s.data.map fun ch => .str ⟨[ch]⟩)
  | .obj kvs => some (kvs.map fun kv => .str kv.1)
  | _ => none

/-- The per-item validation loop over `case_referred`. -/
def validateRefs (items : List JVal) : List JVal :=
  items.map fun item =>
    match item with
    | .obj kvs =>
      .obj [("caseNo", (JVal.obj kvs).getD "caseNo" (.str "")),
        ("partyName", (JVal.obj kvs).getD "partyName" (.str ""))]
    | v => .obj [("caseNo", .str ""), ("partyName", .str (pyStr v))]

/-- The five raise conditions of `_format_ai_result`. -/
def formatAiFails (d : JVal) : Bool :=
  match d with
  | .obj _ =>
    let appellants := partiesOf d "appellants" "appellant"
    let respondents := partiesOf d "respondents" "respondent"
    let rawJudge := d.getD "judge_name" (.str "none")
    let courtName := d.getD "court_name" (.str "")
    let cr := d.getD "caseReferred" .null
    partyFails appellants || partyFails respondents ||
      (rawJudge.truthy && !rawJudge.strEq "none" && !rawJudge.isStr) ||
      (courtName.truthy && !courtName.isStr) ||
      (cr.truthy && (crIterable cr).isNone)
  | _ => true

/-- The value `_format_ai_result` builds when it does not raise. -/
def formatAiCoreKvs (d : JVal) : List (String × JVal) :=
  let appellantStr := partyString (partiesOf d "appellants" "appellant") "Appellant"
  let respondentStr := partyString (partiesOf d "respondents" "respondent") "Respondents"
  let caseYear := d.getD "case_year" (.num 2025)
  let decidedDate := d.getD "decided_date" (.str "none")
  -- decided_day/month default "1"/"1", decided_year defaults to case_year;
  -- a parseable decided_date overrides all three (strptime failure is passed over)
  let parsed : Option (Nat × Nat × Nat) :=
    if decidedDate.truthy && !decidedDate.strEq "none" then
      match decidedDate with
      | .str ds => parseYmd ds
      | _ => none
    else none
  let decidedDay := match parsed with
    | some (_, _, d) => toString d
    | none => "1"
  let decidedMonth := match parsed with
    | some (_, m, _) => toString m
    | none => "1"
  let decidedYear : JVal := match parsed with
    | some (y, _, _) => .num y
    | none => caseYear
  let rawJudge := d.getD "judge_name" (.str "none")
  let judgeNames : List String :=
    if rawJudge.truthy && !rawJudge.strEq "none" then
      match rawJudge with
      | .str s => ((pySplitChar ',' s).map pyStrip).filter (· ≠ "")
      | _ => []
    else []
  let formattedAllJudges :=
    match judgeNames with
    | [] => "none"
    | [j] => "Hon'ble " ++ j ++ " J."
    | js => String.intercalate ", " (js.map fun j => "Hon'ble " ++ j) ++ " JJ."
  let formattedJudgeName :=
    match judgeNames with
    | [] => "none"
    | j :: _ => "Hon'ble " ++ j ++ " J."
  let courtNameV := d.getD "court_name" (.str "")
  let courtInfo :=
    match courtNameV with
    | .str s => mapCourtInfo (some s) none
    | _ => mapCourtInfo none none   -- falsy non-strings lower to "" (truthy ones raise)
  let courtInfo := { courtInfo with allJudges := formattedAllJudges }
  let cr := d.getD "caseReferred" .null
  let crList : List JVal := if cr.truthy then (crIterable cr).getD [] else []
  let validated := validateRefs crList
  let citation := d.getD "citation" (.str "")
  [ ("docId", .num 0),
    ("appellant", .str appellantStr),
    ("remarkable", .str "none"),
    ("respondent", .str respondentStr),
    ("judgeName", .str formattedJudgeName),
    ("judgementOrder", .str ""),
    ("judgementType", d.getD "judgment_type" (.str "Judgement")),
    ("caseResult", d.getD "case_result" (.str "Case outcome to be determined")),
    ("doubleCouncilDetailRequest", .obj [
      ("advocateForRespondent", d.getD "respondent_advocate" (.str "none")),
      ("advocateForAppellant", d.getD "appellant_advocate" (.str "none")),
      ("extraCouncilDetails", .str "none")]),
    ("singleCouncilDetailRequest", .null),
    ("courtDetailRequest", courtInfo.toJVal),
    ("citationRequest", .obj [
      ("citationCategoryId", .num 0), ("journalId", .num 0),
      ("otherCitation", citation), ("neutralCitation", citation),
      ("pageNumber", .str "1"), ("year", caseYear), ("volume", .str "none"),
      ("secondaryCitationCategoryId", .num 0), ("secondaryJournalId", .num 0),
      ("secondaryPageNumber", .str ""), ("secondaryYear", .str "0"),
      ("secondaryVolume", .str ""), ("thirdCitationCategoryId", .num 0),
      ("thirdJournalId", .num 0), ("thirdPageNumber", .str "none"),
      ("thirdYear", .str "0"), ("thirdVolume", .str "none"),
      ("fourthCitationCategoryId", .num 0), ("fourthJournalId", .num 0),
      ("fourthPageNumber", .str "none"), ("fourthYear", .str "0"),
      ("fourthVolume", .str "none")]),
    ("additionalAppellantRespondentRequestList", .arr []),
    ("caseHistoryRequest", .obj [
      ("caseNumber", .str (pyStr (d.getD "case_number" (.str "1")))),
      ("decidedDay", .str decidedDay),
      ("decidedMonth", .str decidedMonth),
      ("decidedYear", decidedYear),
      ("notes", d.getD "notes" (.str "none")),
      ("year", caseYear)]),
    ("headNoteRequestList", .arr []),
    ("caseTopics", .arr []),
    ("success", .bool true),
    ("extraction_method", .str "OpenAI GPT-4"),
    ("ai_metadata", .obj [
      ("case_type", d.getD "case_type" (.str "none")),
      ("case_status", d.getD "case_status" (.str "none")),
      ("bench_strength", d.getD "bench_strength" (.num 1))]),
    ("caseReferred", .arr validated)]

def formatAiCore (d : JVal) : JVal := .obj (formatAiCoreKvs d)

/-- `_format_ai_result` as observed by `_extract_with_openai` (a raise
becomes `None` there). -/
def formatAiResult (d : JVal) : Option JVal :=
  if formatAiFails d then none else some (formatAiCore d)

/-! ## `_chat_with_retry` / `_get_retry_delay` (lines 291–396)

The controller is modelled as a deterministic function of a response
oracle (what the service does on each attempt) and a jitter oracle (what
`random.uniform(0.8, 1.2)` yields on each attempt), returning the reply
(`none` = the exception propagated), the number of call attempts made,
and the sequence of `time.sleep` waits in seconds. -/

/-- Python `int()` on a rational (truncation toward zero). -/
def pyInt (q : ℚ) : ℤ := if 0 ≤ q then ⌊q⌋ else -⌊-q⌋

/-- `_get_retry_delay(attempt, error_type)` with the jitter factor made
explicit: `int(min(2**attempt, cap) * jitter)`. -/
def getRetryDelay (attempt : Nat) (errorType : String) (jitter : ℚ) : ℤ :=
  let baseDelay : ℚ := 2 ^ attempt
  let cap : ℚ :=
    if errorType = "rate_limit" then 120
    else if errorType = "api_error" then 60
    else if errorType = "timeout" then 30
    else 15
  pyInt (min baseDelay cap * jitter)

/-- What one service call does (the `except` arms of `_chat_with_retry`):
success, `RateLimitError` (with an optional `retry_after` hint),
`APIError`/`APITimeoutError`, `ConnectionError`/`TimeoutError`, or a
generic exception (retryable iff `_should_retry_error` says so). -/
inductive ApiCallOutcome : Type
  | success (reply : String)
  | rateLimitErr (retryAfter : Option ℤ)
  | apiErr
  | connErr
  | otherErr (retryable : Bool)

structure ChatSimResult where
  reply : Option String
  attempts : Nat
  waits : List ℤ
  deriving Repr, DecidableEq

/-- The `for attempt in range(max_retries + 1)` loop.  `fuel` is the
number of remaining loop iterations; exhaustion is the `raise` at line
365 (unreachable in fact, since every loop arm returns or raises on the
last iteration). -/
def chatWithRetryGo (resp : Nat → ApiCallOutcome) (jit : Nat → ℚ)
    (maxRetries : Nat) : Nat → Nat → List ℤ → ChatSimResult
  | attempt, 0, acc => ⟨none, attempt, acc.reverse⟩
  | attempt, fuel + 1, acc =>
    match resp attempt with
    | .success r => ⟨some r, attempt + 1, acc.reverse⟩
    | .rateLimitErr ra =>
      let w := match ra with
        | some n => n
        | none => getRetryDelay attempt "rate_limit" (jit attempt)
      if attempt < maxRetries then
        chatWithRetryGo resp jit maxRetries (attempt + 1) fuel (w :: acc)
      else ⟨none, attempt + 1, acc.reverse⟩
    | .apiErr =>
      let w := getRetryDelay attempt "api_error" (jit attempt)
      if attempt < maxRetries then
        chatWithRetryGo resp jit maxRetries (attempt + 1) fuel (w :: acc)
      else ⟨none, attempt + 1, acc.reverse⟩
    | .connErr =>
      let w := getRetryDelay attempt "timeout" (jit attempt)
      if attempt < maxRetries then
        chatWithRetryGo resp jit maxRetries (attempt + 1) fuel (w :: acc)
      else ⟨none, attempt + 1, acc.reverse⟩
    | .otherErr retryable =>
      if !retryable || attempt = maxRetries then ⟨none, attempt + 1, acc.reverse⟩
      else
        let w := getRetryDelay attempt "general" (jit attempt)
        chatWithRetryGo resp jit maxRetries (attempt + 1) fuel (w :: acc)

/-- `_chat_with_retry` under a simulated service. -/
def chatWithRetry (resp : Nat → ApiCallOutcome) (jit : Nat → ℚ)
    (maxRetries : Nat) : ChatSimResult :=
  chatWithRetryGo resp jit maxRetries 0 (maxRetries + 1) []

/-! ## The orchestrator `extract_from_text` (lines 226–289) and its
remote helpers

The network is a parameter: `RemoteEnv` fixes what each `_chat_with_retry`
call site observes (`.reply s` = the call chain returned a completion
with content `s`; `.raised` = it ultimately raised).  Every function that
can touch the network also returns the number of service calls it issued,
so the zero-network-call claims are statements about that count.
Sleeps (`_wait_for_rate_limit_reset`, `_enforce_min_delay`) affect only
timing and are not modelled. -/

/-- The extractor object: the fields of `AILegalDocumentExtractor`
relevant to control flow.  `apiKey` is the result of the credential
resolution chain (argument → environment → config file); `aiAvailable`
is the `AI_AVAILABLE` import flag. -/
structure Client where
  apiKey : Option String
  aiAvailable : Bool
  maxRetries : Nat := 3

/-- What one chat call-site observes of `_chat_with_retry`. -/
inductive ChatOutcome : Type
  | reply (s : String)
  | raised

/-- `check_api_status`'s classification of its probe call. -/
inductive ApiStatusKind : Type
  | available
  | rateLimited
  | errored
  deriving DecidableEq

structure RemoteEnv where
  referredOutcome : ChatOutcome
  judgeOutcome : ChatOutcome
  /-- `rate_limit_reset_time` lies in the future when `check_api_status`
  runs (it then answers `rate_limited` without a call). -/
  statusLocallyLimited : Bool
  /-- classification of the probe call, when one is made. -/
  statusKind : ApiStatusKind
  mainOutcome : ChatOutcome

/-- `check_api_status` (lines 398–437): result kind and number of service
calls issued. -/
def checkApiStatus (_c : Client) (env : RemoteEnv) : ApiStatusKind × Nat :=
  if env.statusLocallyLimited then (.rateLimited, 0) else (env.statusKind, 1)

/-- `_extract_referred_cases_with_ai` (lines 1032–1087): gate on
credentials, one retried chat call, `\[.*\]` narrowing, `json.loads`,
per-item validation; every failure mode yields `[]`. -/
def extractReferredCasesWithAI (c : Client) (env : RemoteEnv) (_text : String) :
    List JVal × Nat :=
  if !(c.apiKey.isSome && c.aiAvailable) then ([], 0)
  else
    match env.referredOutcome with
    | .raised => ([], 1)
    | .reply s =>
      let rt := pyStrip s
      let rt := match research Pat.flagsS Pat.bracketPat rt with
        | some m => m.matched rt
        | none => rt
      match parseJson rt with
      | some (.arr cases) =>
        (cases.filterMap fun item =>
          match item with
          | .obj kvs =>
            some (JVal.obj [("caseNo", (JVal.obj kvs).getD "caseNo" (.str "")),
              ("partyName", (JVal.obj kvs).getD "partyName" (.str ""))])
          | _ => none, 1)
      | some _ => ([], 1)
      | none => ([], 1)

/-- `_extract_judge_name_with_ai` (lines 1089–1116): gate on credentials,
one retried chat call, first line of the stripped reply; every failure
mode yields `"none"`. -/
def extractJudgeNameWithAI (c : Client) (env : RemoteEnv) (_text : String) :
    String × Nat :=
  if !(c.apiKey.isSome && c.aiAvailable) then ("none", 0)
  else
    match env.judgeOutcome with
    | .raised => ("none", 1)
    | .reply s =>
      let rt := pyStrip s
      if rt ≠ "" then (pyStrip (((pySplitChar '\n' rt).headD "")), 1)
      else ("none", 1)

/-- The `re.search(r'\{.*\}', result_text, re.DOTALL)` narrowing: keep the
outermost brace span when one exists, the raw text otherwise. -/
def braceNarrow (s : String) : String :=
  match research Pat.flagsS Pat.bracePat s with
  | some m => m.matched s
  | none => s

/-- `_extract_with_openai` (lines 465–530): one retried chat call; the
reply is stripped, narrowed to `\{.*\}` when that matches, parsed as
JSON, and formatted; every exception arm returns `None` (the prompt text
does not influence the modelled outcome and is elided). -/
def extractWithOpenai (_c : Client) (env : RemoteEnv) (_text : String) :
    Option JVal × Nat :=
  match env.mainOutcome with
  | .raised => (none, 1)
  | .reply s =>
    match parseJson (braceNarrow (pyStrip s)) with
    | none => (none, 1)
    | some aiData => (formatAiResult aiData, 1)

/-- `extract_from_text` (lines 226–289).  Returns the record and the
total number of remote service calls issued on that control path. -/
def extractFromText (c : Client) (env : RemoteEnv) (text : String)
    (useAi : Bool := true) : JVal × Nat :=
  if text = "" || pyStrip text = "" then
    (errorResult "No text content provided", 0)
  else
    let t := cleanText text
    let gate := useAi && c.apiKey.isSome && c.aiAvailable
    let (caseReferredAI, n1) :=
      if gate then extractReferredCasesWithAI c env t else ([], 0)
    let caseReferred : List JVal :=
      if caseReferredAI.isEmpty then
        (extractCaseReferred t).map fun p => refCaseObj p.1 p.2
      else caseReferredAI
    let (judgeAI, n2) : Option String × Nat :=
      if gate then
        let r := extractJudgeNameWithAI c env t
        (some r.1, r.2)
      else (none, 0)
    let judgeName :=
      match judgeAI with
      | some j => if j = "" || j = "none" then extractJudgeRegex t else j
      | none => extractJudgeRegex t
    let finishRegex (extraCalls : Nat) : JVal × Nat :=
      (((extractWithRegex t).set "caseReferred" (.arr caseReferred)).set
        "judge_name" (.str judgeName), n1 + n2 + extraCalls)
    if gate then
      let (status, n3) := checkApiStatus c env
      if status = .rateLimited then finishRegex n3
      else
        let (aiRes, n4) := extractWithOpenai c env t
        match aiRes with
        | some r =>
          if (r.getD "success" (.bool false)).truthy then
            (((r.set "caseReferred" (.arr caseReferred)).set
              "judge_name" (.str judgeName), n1 + n2 + n3 + n4))
          else finishRegex (n3 + n4)
        | none => finishRegex (n3 + n4)
    else finishRegex 0

/-! ## `_extract_from_pdf` (lines 125–196): the case-result override

Page acquisition (`fitz` + OCR) is external I/O; the model takes the
concatenated page text as input and embeds everything from the
`text.strip()` check on. -/

/-- The canonical mapping `result_map` (line 162). -/
def resultMap : List (String × String) :=
  [("dismissed", "Petition dismissed"), ("allowed", "Petition allowed"),
    ("disposed of", "Disposed of"), ("order accordingly", "Order accordingly")]

/-- The last-paragraphs/last-lines scan (lines 159–184): split into
paragraphs (blank line or newline-after-period) and lines, keep the last
five of each, search from the end for the first block containing one of
the keywords. -/
def lastCaseResult (text : String) : Option String :=
  let paragraphs :=
    ((resplit Pat.flags0 Pat.paraSplitPat text).map pyStrip).filter (· ≠ "")
  let lines := ((pySplitChar '\n' text).map pyStrip).filter (· ≠ "")
  let searchBlocks :=
    (if paragraphs.length ≥ 5 then paragraphs.drop (paragraphs.length - 5)
      else paragraphs) ++
    (if lines.length ≥ 5 then lines.drop (lines.length - 5) else lines)
  searchBlocks.reverse.findSome? fun block =>
    let bl := pyLower block
    (resultMap.find? fun kv => pyIn kv.1 bl).map (·.2)

/-- `_extract_from_pdf` given the acquired page text: empty text is a
terminal error record; otherwise `extract_from_text` runs and its
`caseResult` is overwritten by the scan result (or `"none"`). -/
def extractFromPdf (c : Client) (env : RemoteEnv) (text : String) : JVal × Nat :=
  if pyStrip text = "" then (errorResult "No text content found in PDF", 0)
  else
    let lcr := lastCaseResult text
    let (result, n) := extractFromText c env text true
    (result.set "caseResult" (.str (lcr.getD "none")), n)

/-! ## `enhanced_extractor.py`: `clean_extraction_result` (lines 154–181)
and `extract_judge` (lines 276–297) -/

/-- The record fields `clean_extraction_result` inspects (the remaining
record is carried through unchanged by the source). -/
structure PartyFields where
  appellant : String
  respondent : String
  advocateForAppellant : String
  advocateForRespondent : String
  deriving Repr, DecidableEq

/-- The `legal_terms` blacklist (line 177). -/
def legalTerms : List String :=
  ["has contended", "that appellate", "authority under", "statute can",
    "rectify his", "order at any", "time in case", "he feels that",
    "order has been", "passed on incorrect", "facts there",
    "decartoning room", "separate airlock", "was provided"]

/-- `clean_extraction_result`: parties over 100 characters collapse to
their placeholder; advocates over 50 characters, then advocates
containing a blacklisted fragment, collapse to `"none"`. -/
def cleanExtractionResult (r : PartyFields) : PartyFields :=
  let appellant :=
    if r.appellant ≠ "" && r.appellant.length > 100 then "Appellant"
    else r.appellant
  let respondent :=
    if r.respondent ≠ "" && r.respondent.length > 100 then "Respondents"
    else r.respondent
  let advA :=
    if r.advocateForAppellant ≠ "" && r.advocateForAppellant.length > 50 then
      "none"
    else r.advocateForAppellant
  let advR :=
    if r.advocateForRespondent ≠ "" && r.advocateForRespondent.length > 50 then
      "none"
    else r.advocateForRespondent
  let advA :=
    if advA ≠ "" && advA ≠ "none" && legalTerms.any (fun t => pyIn t (pyLower advA))
    then "none" else advA
  let advR :=
    if advR ≠ "" && advR ≠ "none" && legalTerms.any (fun t => pyIn t (pyLower advR))
    then "none" else advR
  ⟨appellant, respondent, advA, advR⟩

namespace EPat

open RE Pat

/-- `(?:[,\n]|$|Case|BETWEEN)` -/
def endE1 : RE :=
  alt (cls false [.ch ',', .ch '\n']) (alt eol (alt (str "Case") (str "BETWEEN")))

/-- `HON\'BLE\s+(?:MR\.|MRS\.|MS\.)?\s*JUSTICE\s+([A-Z][A-Za-z\s\.]+?)(?:[,\n]|$|Case|BETWEEN)` -/
def e1 : RE :=
  seq [str "HON'BLE", plus true sp,
    opt true (alt (str "MR.") (alt (str "MRS.") (str "MS."))), star true sp,
    str "JUSTICE", plus true sp, group 1 (seq [az, plus false nameCls]), endE1]

/-- `Hon\'ble\s+(?:Mr\.|Mrs\.)?\s*Justice\s+([A-Z][A-Za-z\s\.]+?)(?:[,\s]*J\.)?(?:[,\n]|$)` -/
def e2 : RE :=
  seq [str "Hon'ble", plus true sp, opt true (alt (str "Mr.") (str "Mrs.")),
    star true sp, str "Justice", plus true sp,
    group 1 (seq [az, plus false nameCls]),
    opt true (seq [star true (cls false [.ch ',', .space]), str "J."]), endComma]

/-- `CORAM\s*:\s*([A-Z][A-Za-z\s\.]+?)(?:\s*J\.)?(?:[,\n]|$)` -/
def e3 : RE :=
  seq [str "CORAM", star true sp, lit ':', star true sp,
    group 1 (seq [az, plus false nameCls]),
    opt true (seq [star true sp, str "J."]), endComma]

/-- `Before\s*:\s*([A-Z][A-Za-z\s\.]+?)(?:[,\n]|$)` -/
def e4 : RE :=
  seq [str "Before", star true sp, lit ':', star true sp,
    group 1 (seq [az, plus false nameCls]), endComma]

/-- `\(\s*([A-Z][A-Za-z\s\.]+?)\s*\)\s*(?:JUDGE|JUSTICE|J\.)` -/
def e5 : RE :=
  seq [lit '(', star true sp, group 1 (seq [az, plus false nameCls]),
    star true sp, lit ')', star true sp,
    alt (str "JUDGE") (alt (str "JUSTICE") (str "J."))]

def enhancedJudgePats : List RE := [e1, e2, e3, e4, e5]

/-- `(?:HON\'BLE|MR\.|MRS\.|MS\.|JUSTICE)\s*` -/
def eSub : RE :=
  seq [alt (str "HON'BLE") (alt (str "MR.") (alt (str "MRS.")
    (alt (str "MS.") (str "JUSTICE")))), star true sp]

end EPat

/-- `enhanced_extractor.extract_judge`: first pattern whose cleaned
capture is longer than 3 characters wins; otherwise `None`. -/
def enhancedExtractJudge (text : String) : Option String :=
  EPat.enhancedJudgePats.findSome? fun p =>
    match research Pat.flagsIM p text with
    | none => none
    | some m =>
      match m.group text 1 with
      | none => none
      | some g =>
        let judge := pyStrip g
        let judge := resub Pat.flagsI EPat.eSub "" judge
        let judge := pyStrip judge
        if judge.length > 3 then some judge else none

/-! ## `dynamic_metadata_extractor.py`: the PDF text-acquisition chain
(lines 322–396) -/

/-- What one tier's underlying extraction does before its `try`/`except`:
produce text, or raise. -/
inductive TierOutcome : Type
  | ok (s : String)
  | raise
  deriving Repr, DecidableEq

/-- Each of `extract_text_from_pdf`, `…_with_pdfplumber`, `…_with_ocr`
wraps its library calls in `try … except: return ""`, so a raising tier
yields the empty string. -/
def tierText : TierOutcome → String
  | .ok s => s
  | .raise => ""

/-- The PDF branch of `extract_all_metadata` (lines 366–372): tier 1,
then tier 2 iff the current text strips to empty, then tier 3 iff it
still does.  Returns the final text and which tiers were attempted. -/
def acquirePdfText (t1 t2 t3 : TierOutcome) : String × Bool × Bool :=
  let text := tierText t1
  let attempted2 := pyStrip text == ""
  let text := if attempted2 then tierText t2 else text
  let attempted3 := pyStrip text == ""
  let text := if attempted3 then tierText t3 else text
  (text, attempted2, attempted3)

/-! ## Shared lemmas -/

namespace JVal

theorem jlookup_setKV_self (kvs : List (String × JVal)) (k : String) (v : JVal) :
    jlookup (setKV kvs k v) k = some v := by
  induction kvs with
  | nil => simp [setKV, jlookup]
  | cons kv rest ih =>
    obtain ⟨k', v'⟩ := kv
    by_cases h : k' = k
    · simp [setKV, h, jlookup]
    · simp only [setKV, h, if_false]
      simpa [jlookup, List.find?, h] using ih

theorem jlookup_setKV_other (kvs : List (String × JVal)) (k k' : String)
    (v : JVal) (h : k' ≠ k) :
    jlookup (setKV kvs k v) k' = jlookup kvs k' := by
  induction kvs with
  | nil => simp [setKV, jlookup, List.find?, Ne.symm h]
  | cons kv rest ih =>
    obtain ⟨k'', v''⟩ := kv
    by_cases h2 : k'' = k
    · subst h2
      simp [setKV, jlookup, List.find?, Ne.symm h]
    · simp only [setKV, h2, if_false]
      by_cases h3 : k'' = k'
      · simp [jlookup, List.find?, h3]
      · simpa [jlookup, List.find?, h3] using ih


theorem get?_set_self (kvs : List (String × JVal)) (k : String) (v : JVal) :
    (JVal.set (.obj kvs) k v).get? k = some v := by
  simp [JVal.set, get?, jlookup_setKV_self]

theorem get?_set_other (kvs : List (String × JVal)) (k k' : String) (v : JVal)
    (h : k' ≠ k) : (JVal.set (.obj kvs) k v).get? k' = (JVal.obj kvs).get? k' := by
  simp [JVal.set, get?, jlookup_setKV_other _ _ _ _ h]

theorem getStr_set_self (kvs : List (String × JVal)) (k : String) (s : String) :
    (JVal.set (.obj kvs) k (.str s)).getStr k = s := by
  simp [getStr, get?_set_self]

theorem getStr_set_other (kvs : List (String × JVal)) (k k' : String) (v : JVal)
    (h : k' ≠ k) :
    (JVal.set (.obj kvs) k v).getStr k' = (JVal.obj kvs).getStr k' := by
  simp [getStr, get?_set_other _ _ _ _ h]

theorem hasKey_set_self (kvs : List (String × JVal)) (k : String) (v : JVal) :
    (JVal.set (.obj kvs) k v).hasKey k = true := by
  simp [hasKey, get?_set_self]

theorem hasKey_set_other (kvs : List (String × JVal)) (k k' : String) (v : JVal)
    (h : k' ≠ k) :
    (JVal.set (.obj kvs) k v).hasKey k' = (JVal.obj kvs).hasKey k' := by
  simp [hasKey, get?_set_other _ _ _ _ h]

theorem isNullAt_set_other (kvs : List (String × JVal)) (k k' : String) (v : JVal)
    (h : k' ≠ k) :
    (JVal.set (.obj kvs) k v).isNullAt k' = (JVal.obj kvs).isNullAt k' := by
  simp [isNullAt, get?_set_other _ _ _ _ h]

end JVal

/-- `_format_ai_result` builds a dictionary. -/
theorem formatAiCore_isObj (d : JVal) : ∃ kvs, formatAiCore d = .obj kvs :=
  ⟨_, rfl⟩

/-- A successful `_extract_with_openai` result is a dictionary. -/
theorem extractWithOpenai_some_obj (c : Client) (env : RemoteEnv) (t : String)
    (r : JVal) (h : (extractWithOpenai c env t).1 = some r) :
    ∃ kvs, r = .obj kvs := by
  unfold extractWithOpenai at h
  split at h
  · simp at h
  · split at h
    · simp at h
    · simp only [formatAiResult] at h
      split at h
      · simp at h
      · rw [Option.some_inj] at h
        exact ⟨_, h.symm⟩

/-- A bound on the retry loop: starting at `attempt` with `fuel` remaining
iterations, at most `attempt + fuel` attempts are ever reported. -/
theorem chatWithRetryGo_attempts_le (resp : Nat → ApiCallOutcome)
    (jit : Nat → ℚ) (maxR : Nat) :
    ∀ fuel attempt acc,
      (chatWithRetryGo resp jit maxR attempt fuel acc).attempts ≤ attempt + fuel := by
  intro fuel
  induction fuel with
  | zero => intro attempt acc; simp [chatWithRetryGo]
  | succ n ih =>
    intro attempt acc
    unfold chatWithRetryGo
    cases resp attempt with
    | success r => dsimp only; omega
    | rateLimitErr ra =>
      dsimp only
      split
      · exact le_trans (ih _ _) (by omega)
      · dsimp only; omega
    | apiErr =>
      dsimp only
      split
      · exact le_trans (ih _ _) (by omega)
      · dsimp only; omega
    | connErr =>
      dsimp only
      split
      · exact le_trans (ih _ _) (by omega)
      · dsimp only; omega
    | otherErr retryable =>
      dsimp only
      split
      · dsimp only; omega
      · exact le_trans (ih _ _) (by omega)

/-- On the `"rate_limit"` error type the delay formula specialises to
`int(min(2**attempt, 120) * jitter)`. -/
theorem getRetryDelay_rate_eq (i : Nat) (j : ℚ) :
    getRetryDelay i "rate_limit" j = pyInt (min ((2:ℚ) ^ i) 120 * j) := rfl

/-- Consecutive rate-limit delays grow while the exponential base stays
below the cap, for any jitters drawn from `[0.8, 1.2]`. -/
theorem getRetryDelay_rate_mono (i : Nat) (j1 j2 : ℚ)
    (h1a : 4/5 ≤ j1) (h1b : j1 ≤ 6/5) (h2a : 4/5 ≤ j2) (_h2b : j2 ≤ 6/5)
    (hcap : (2:ℚ) ^ (i + 1) ≤ 120) :
    getRetryDelay i "rate_limit" j1 ≤ getRetryDelay (i + 1) "rate_limit" j2 := by
  have hb1 : ((2:ℚ) ^ i) ≤ 120 := by
    calc ((2:ℚ) ^ i) ≤ (2:ℚ) ^ (i + 1) := by
          apply pow_le_pow_right₀ (by norm_num) (by omega)
      _ ≤ 120 := hcap
  have hpos1 : (0:ℚ) < 2 ^ i := by positivity
  have hpos2 : (0:ℚ) < 2 ^ (i + 1) := by positivity
  have hj1 : (0:ℚ) ≤ j1 := le_trans (by norm_num) h1a
  have hj2 : (0:ℚ) ≤ j2 := le_trans (by norm_num) h2a
  rw [getRetryDelay_rate_eq, getRetryDelay_rate_eq, min_eq_left hb1,
    min_eq_left hcap]
  have hq : (2:ℚ) ^ i * j1 ≤ (2:ℚ) ^ (i + 1) * j2 := by
    have hstep : (2:ℚ) ^ (i + 1) = 2 * 2 ^ i := by ring
    calc (2:ℚ) ^ i * j1 ≤ (2:ℚ) ^ i * (6/5) := by
          exact mul_le_mul_of_nonneg_left h1b (le_of_lt hpos1)
      _ ≤ (2:ℚ) ^ (i + 1) * (4/5) := by rw [hstep]; nlinarith
      _ ≤ (2:ℚ) ^ (i + 1) * j2 := mul_le_mul_of_nonneg_left h2a (le_of_lt hpos2)
  unfold pyInt
  rw [if_pos (by positivity), if_pos (by positivity)]
  exact Int.floor_le_floor hq

/-- A rate-limit delay is at most the 120-second cap whenever the base is
comfortably below it. -/
theorem getRetryDelay_rate_le_120 (i : Nat) (j : ℚ) (h0 : 0 ≤ j)
    (h1 : j ≤ 6/5) (hp : (2:ℚ) ^ i ≤ 100) :
    getRetryDelay i "rate_limit" j ≤ 120 := by
  have hq : min ((2:ℚ) ^ i) 120 * j ≤ 120 := by
    have hm : min ((2:ℚ) ^ i) 120 ≤ 100 := le_trans (min_le_left _ _) hp
    have hm0 : (0:ℚ) ≤ min ((2:ℚ) ^ i) 120 := by positivity
    nlinarith
  rw [getRetryDelay_rate_eq]
  unfold pyInt
  rw [if_pos (by positivity)]
  calc ⌊min ((2:ℚ) ^ i) 120 * j⌋ ≤ ⌊(120:ℚ)⌋ := Int.floor_le_floor hq
    _ = 120 := by norm_num

/-- Every record produced by `extract_from_text` is a dictionary. -/
theorem extractFromText_isObj (c : Client) (env : RemoteEnv) (text : String)
    (useAi : Bool) : ∃ kvs, (extractFromText c env text useAi).1 = .obj kvs := by
  unfold extractFromText
  split
  · exact ⟨_, rfl⟩
  · dsimp only
    split
    · split
      · exact ⟨_, rfl⟩
      · rcases h : (extractWithOpenai c env (cleanText text)).1 with _ | r
        · simp only [h]
          exact ⟨_, rfl⟩
        · simp only [h]
          obtain ⟨kvs, hk⟩ := extractWithOpenai_some_obj c env (cleanText text) r h
          subst hk
          split
          · exact ⟨_, rfl⟩
          · exact ⟨_, rfl⟩
    · exact ⟨_, rfl⟩

/-! ## Fixtures for the concrete scenarios -/

/-- An environment in which every remote exchange would raise (nothing in
the claims below depends on it unless the remote tier is reachable). -/
def envAllRaised : RemoteEnv := ⟨.raised, .raised, false, .available, .raised⟩

/-- A client whose credential resolution produced no API key. -/
def noKeyClient : Client := ⟨none, true, 3⟩

/-! ## The claims -/

/-- **C9**: for a PDF, `extract_all_metadata` attempts the layout-aware
tier 2 exactly when tier 1's trimmed text is empty, attempts the OCR
tier 3 exactly when tier 2's trimmed output is also empty, an internally
raising tier contributes empty text rather than an exception, and the
caller sees empty (trimmed) text exactly when all three tiers produced
empty trimmed text. -/
theorem C9_pdf_tier_chain (t1 t2 t3 : TierOutcome) :
    (acquirePdfText t1 t2 t3).2.1 = (pyStrip (tierText t1) == "") ∧
    (acquirePdfText t1 t2 t3).2.2 =
      ((pyStrip (tierText t1) == "") && (pyStrip (tierText t2) == "")) ∧
    ((pyStrip (acquirePdfText t1 t2 t3).1 == "") =
      ((pyStrip (tierText t1) == "") && (pyStrip (tierText t2) == "") &&
        (pyStrip (tierText t3) == ""))) ∧
    tierText .raise = "" := by
  refine ⟨rfl, ?_, ?_, rfl⟩ <;>
    · unfold acquirePdfText
      by_cases h1 : pyStrip (tierText t1) == "" <;>
        by_cases h2 : pyStrip (tierText t2) == "" <;>
          simp [h1, h2]

/-- **C4**: under consecutive simulated rate-limit responses with the
constructor-default `max_retries = 3`, the controller makes exactly
`max_retries + 1` call attempts (and never more than `maxR + 1` under any
simulated service), and the backoff waits — `int(min(2**attempt, 120) *
jitter)` with each jitter in `[0.8, 1.2]` — form a non-decreasing
sequence bounded by the 120-second cap. -/
theorem C4_retry_backoff (jit : Nat → ℚ)
    (hj : ∀ i, 4/5 ≤ jit i ∧ jit i ≤ 6/5) :
    (∀ (resp : Nat → ApiCallOutcome) (maxR : Nat),
      (chatWithRetry resp jit maxR).attempts ≤ maxR + 1) ∧
    (chatWithRetry (fun _ => .rateLimitErr none) jit 3).attempts = 3 + 1 ∧
    (chatWithRetry (fun _ => .rateLimitErr none) jit 3).waits.Chain' (· ≤ ·) ∧
    (∀ w ∈ (chatWithRetry (fun _ => .rateLimitErr none) jit 3).waits,
      w ≤ 120) := by
  have heval : chatWithRetry (fun _ => .rateLimitErr none) jit 3 =
      ⟨none, 4, [getRetryDelay 0 "rate_limit" (jit 0),
        getRetryDelay 1 "rate_limit" (jit 1),
        getRetryDelay 2 "rate_limit" (jit 2)]⟩ := rfl
  refine ⟨fun resp maxR => ?_, ?_, ?_, ?_⟩
  · simpa [chatWithRetry] using chatWithRetryGo_attempts_le resp jit maxR (maxR + 1) 0 []
  · rw [heval]
  · rw [heval]
    refine List.Chain'.cons ?_ (List.Chain'.cons ?_ (List.chain'_singleton _))
    · exact getRetryDelay_rate_mono 0 (jit 0) (jit 1) (hj 0).1 (hj 0).2
        (hj 1).1 (hj 1).2 (by norm_num)
    · exact getRetryDelay_rate_mono 1 (jit 1) (jit 2) (hj 1).1 (hj 1).2
        (hj 2).1 (hj 2).2 (by norm_num)
  · rw [heval]
    intro w hw
    simp only [List.mem_cons, List.not_mem_nil, or_false] at hw
    rcases hw with rfl | rfl | rfl
    · exact getRetryDelay_rate_le_120 0 (jit 0)
        (le_trans (by norm_num) (hj 0).1) (hj 0).2 (by norm_num)
    · exact getRetryDelay_rate_le_120 1 (jit 1)
        (le_trans (by norm_num) (hj 1).1) (hj 1).2 (by norm_num)
    · exact getRetryDelay_rate_le_120 2 (jit 2)
        (le_trans (by norm_num) (hj 2).1) (hj 2).2 (by norm_num)

/-- Closed instance of `C4_retry_backoff` at the unit jitter: four
attempts are made, no more than `max_retries + 1`. -/
theorem C4_retry_backoff_witness :
    (chatWithRetry (fun _ => .rateLimitErr none) (fun _ => 1) 3).attempts =
      3 + 1 :=
  (C4_retry_backoff (fun _ => 1)
    (fun _ => ⟨by norm_num, by norm_num⟩)).2.1

/-- **C8**: advocates surviving `clean_extraction_result` are at most 50
characters and contain no blacklisted fragment; surviving parties are at
most 100 characters; rejected candidates are replaced wholesale by the
field's placeholder, never repaired. -/
theorem C8_cleaner_bounds (r : PartyFields) :
    ((cleanExtractionResult r).advocateForAppellant ≠ "none" →
      (cleanExtractionResult r).advocateForAppellant.length ≤ 50 ∧
      ∀ t ∈ legalTerms,
        pyIn t (pyLower (cleanExtractionResult r).advocateForAppellant) = false) ∧
    ((cleanExtractionResult r).advocateForRespondent ≠ "none" →
      (cleanExtractionResult r).advocateForRespondent.length ≤ 50 ∧
      ∀ t ∈ legalTerms,
        pyIn t (pyLower (cleanExtractionResult r).advocateForRespondent) = false) ∧
    ((cleanExtractionResult r).appellant ≠ "Appellant" →
      (cleanExtractionResult r).appellant.length ≤ 100) ∧
    ((cleanExtractionResult r).respondent ≠ "Respondents" →
      (cleanExtractionResult r).respondent.length ≤ 100) ∧
    ((cleanExtractionResult r).advocateForAppellant = r.advocateForAppellant ∨
      (cleanExtractionResult r).advocateForAppellant = "none") ∧
    ((cleanExtractionResult r).advocateForRespondent = r.advocateForRespondent ∨
      (cleanExtractionResult r).advocateForRespondent = "none") ∧
    ((cleanExtractionResult r).appellant = r.appellant ∨
      (cleanExtractionResult r).appellant = "Appellant") ∧
    ((cleanExtractionResult r).respondent = r.respondent ∨
      (cleanExtractionResult r).respondent = "Respondents") := by
  unfold cleanExtractionResult
  dsimp only
  refine ⟨?_, ?_, ?_, ?_, ?_, ?_, ?_, ?_⟩
  · intro hne
    split_ifs at hne ⊢ with h1 h2 h2
    · exact absurd rfl hne
    · exact absurd rfl hne
    · exact absurd rfl hne
    · simp only [Bool.and_eq_true, decide_eq_true_eq, ne_eq, not_and] at h1 h2
      have hlen : r.advocateForAppellant.length ≤ 50 := by
        by_cases hz : r.advocateForAppellant = ""
        · simp [hz]
        · by_contra hgt
          push_neg at hgt
          exact h1 hz (by omega)
      refine ⟨hlen, fun t ht => ?_⟩
      by_cases hz : r.advocateForAppellant = ""
      · rw [hz]
        fin_cases ht <;> decide
      · rcases Bool.eq_false_or_eq_true
          (legalTerms.any fun t => pyIn t (pyLower r.advocateForAppellant)) with hany | hany
        · exact absurd hany (h2 ⟨hz, hne⟩)
        · rw [List.any_eq_false] at hany
          simpa using hany t ht
  · intro hne
    split_ifs at hne ⊢ with h1 h2 h2
    · exact absurd rfl hne
    · exact absurd rfl hne
    · exact absurd rfl hne
    · simp only [Bool.and_eq_true, decide_eq_true_eq, ne_eq, not_and] at h1 h2
      have hlen : r.advocateForRespondent.length ≤ 50 := by
        by_cases hz : r.advocateForRespondent = ""
        · simp [hz]
        · by_contra hgt
          push_neg at hgt
          exact h1 hz (by omega)
      refine ⟨hlen, fun t ht => ?_⟩
      by_cases hz : r.advocateForRespondent = ""
      · rw [hz]
        fin_cases ht <;> decide
      · rcases Bool.eq_false_or_eq_true
          (legalTerms.any fun t => pyIn t (pyLower r.advocateForRespondent)) with hany | hany
        · exact absurd hany (h2 ⟨hz, hne⟩)
        · rw [List.any_eq_false] at hany
          simpa using hany t ht
  · intro hne
    split_ifs at hne ⊢ with h1
    · exact absurd rfl hne
    · simp only [Bool.and_eq_true, decide_eq_true_eq, ne_eq, not_and] at h1
      by_cases hz : r.appellant = ""
      · simp [hz]
      · by_contra hgt
        push_neg at hgt
        exact h1 hz (by omega)
  · intro hne
    split_ifs at hne ⊢ with h1
    · exact absurd rfl hne
    · simp only [Bool.and_eq_true, decide_eq_true_eq, ne_eq, not_and] at h1
      by_cases hz : r.respondent = ""
      · simp [hz]
      · by_contra hgt
        push_neg at hgt
        exact h1 hz (by omega)
  · split_ifs <;> simp
  · split_ifs <;> simp
  · split_ifs <;> simp
  · split_ifs <;> simp

/-- Closed instance of `C8_cleaner_bounds` on a record every field of
which survives cleaning. -/
theorem C8_cleaner_bounds_witness :
    ((cleanExtractionResult ⟨"Ab", "Cd", "Mr. X", "Ms. Y"⟩).advocateForAppellant
        ≠ "none" ∧
      (cleanExtractionResult
        ⟨"Ab", "Cd", "Mr. X", "Ms. Y"⟩).advocateForAppellant.length ≤ 50) ∧
    ((cleanExtractionResult ⟨"Ab", "Cd", "Mr. X", "Ms. Y"⟩).advocateForRespondent
        ≠ "none" ∧
      (cleanExtractionResult
        ⟨"Ab", "Cd", "Mr. X", "Ms. Y"⟩).advocateForRespondent.length ≤ 50) ∧
    ((cleanExtractionResult ⟨"Ab", "Cd", "Mr. X", "Ms. Y"⟩).appellant
        ≠ "Appellant" ∧
      (cleanExtractionResult ⟨"Ab", "Cd", "Mr. X", "Ms. Y"⟩).appellant.length
        ≤ 100) ∧
    ((cleanExtractionResult ⟨"Ab", "Cd", "Mr. X", "Ms. Y"⟩).respondent
        ≠ "Respondents" ∧
      (cleanExtractionResult ⟨"Ab", "Cd", "Mr. X", "Ms. Y"⟩).respondent.length
        ≤ 100) :=
  ⟨⟨by decide, ((C8_cleaner_bounds ⟨"Ab", "Cd", "Mr. X", "Ms. Y"⟩).1
      (by decide)).1⟩,
    ⟨by decide, ((C8_cleaner_bounds ⟨"Ab", "Cd", "Mr. X", "Ms. Y"⟩).2.1
      (by decide)).1⟩,
    ⟨by decide, (C8_cleaner_bounds ⟨"Ab", "Cd", "Mr. X", "Ms. Y"⟩).2.2.1
      (by decide)⟩,
    ⟨by decide, (C8_cleaner_bounds ⟨"Ab", "Cd", "Mr. X", "Ms. Y"⟩).2.2.2.1
      (by decide)⟩⟩

/-- The `extraction_method` leaf of the regex record. -/
theorem extractWithRegex_method (t : String) :
    (extractWithRegex t).getStr "extraction_method" = "Regex fallback" := rfl

/-- The pattern path of `extract_from_text` (regex record plus the
`caseReferred`/`judge_name` assignments) keeps the regex tag. -/
theorem finishRegex_method (t : String) (cr : List JVal) (jn : String) :
    (((extractWithRegex t).set "caseReferred" (.arr cr)).set "judge_name"
      (.str jn)).getStr "extraction_method" = "Regex fallback" := by
  show ((JVal.obj (extractWithRegexKvs t)).set "caseReferred" (.arr cr) |>.set
    "judge_name" (.str jn)).getStr "extraction_method" = "Regex fallback"
  rw [show ∀ kvs k v, (JVal.obj kvs).set k v = .obj (JVal.setKV kvs k v)
    from fun _ _ _ => rfl]
  rw [show ∀ kvs k v, (JVal.obj kvs).set k v = .obj (JVal.setKV kvs k v)
    from fun _ _ _ => rfl]
  show (JVal.obj _).getStr _ = _
  simp only [JVal.getStr, JVal.get?, JVal.jlookup_setKV_other _ _ _ _
    (by decide : ("extraction_method" : String) ≠ "judge_name"),
    JVal.jlookup_setKV_other _ _ _ _
    (by decide : ("extraction_method" : String) ≠ "caseReferred")]
  exact congrArg _ rfl

/-- **C5**: `_map_court_info` is total: every result carries the
`courtId`/`courtBenchId`/`courtBranchId`/`citationCategory` keys; the
Bombay "bench at Aurangabad" special case takes priority over the whole
regional table; and when no table pattern matches (and the special case
does not apply) the generic default tuple `(courtId 1, courtBenchId 1,
courtBranchId "34", citationCategory "")` is returned. -/
theorem C5_court_mapper_total (name : Option String) (loc : Option String) :
    ((mapCourtInfo name loc).toJVal.hasKey "courtId" = true ∧
      (mapCourtInfo name loc).toJVal.hasKey "courtBenchId" = true ∧
      (mapCourtInfo name loc).toJVal.hasKey "courtBranchId" = true ∧
      (mapCourtInfo name loc).toJVal.hasKey "citationCategory" = true) ∧
    (aurangabadCond (courtNameLower name) = true →
      mapCourtInfo name loc = defaultCourt.update ⟨19, 1, "43", "Bom"⟩) ∧
    ((aurangabadCond (courtNameLower name) = false ∧
      (courtMappings.find? fun e =>
        (research Pat.flagsI e.1 (courtNameLower name)).isSome).isNone = true) →
      mapCourtInfo name loc = defaultCourt ∧
      mapCourtInfo name loc =
        ⟨"none", 1, "34", 1, ""⟩) := by
  refine ⟨⟨rfl, rfl, rfl, rfl⟩, fun h => ?_, fun ⟨h1, h2⟩ => ?_⟩
  · simp [mapCourtInfo, h]
  · rw [Option.isNone_iff_eq_none] at h2
    exact ⟨by simp [mapCourtInfo, h1, h2], by simp [mapCourtInfo, h1, h2, defaultCourt]⟩

/-- Closed instance of `C5_court_mapper_total`: the Aurangabad special
case fires on a name that also matches the table, and an unmatchable name
falls to the generic default. -/
theorem C5_court_mapper_total_witness :
    (aurangabadCond (courtNameLower (some "bombay bench at aurangabad")) = true ∧
      mapCourtInfo (some "bombay bench at aurangabad") none =
        defaultCourt.update ⟨19, 1, "43", "Bom"⟩) ∧
    (aurangabadCond (courtNameLower (none : Option String)) = false ∧
      mapCourtInfo none none = defaultCourt) := by
  have h1 : aurangabadCond (courtNameLower (some "bombay bench at aurangabad")) =
      true := by decide
  have h2 : aurangabadCond (courtNameLower (none : Option String)) = false := by
    decide
  have h3 : (courtMappings.find? fun e =>
      (research Pat.flagsI e.1 (courtNameLower (none : Option String))).isSome).isNone =
      true := by decide
  exact ⟨⟨h1, (C5_court_mapper_total (some "bombay bench at aurangabad") none).2.1 h1⟩,
    ⟨h2, ((C5_court_mapper_total none none).2.2 ⟨h2, h3⟩).1⟩⟩

/-- **C10**: for non-empty acquired PDF text, `_extract_from_pdf`'s
`caseResult` equals the last-blocks scan result (overwriting whatever the
inner extraction produced, whatever the remote environment did), and that
value is always one of the five documented strings. -/
theorem C10_case_result_override (c : Client) (env : RemoteEnv) (text : String)
    (h : pyStrip text ≠ "") :
    JVal.getStr (extractFromPdf c env text).1 "caseResult" =
      (lastCaseResult text).getD "none" ∧
    (lastCaseResult text).getD "none" ∈
      ["Petition dismissed", "Petition allowed", "Disposed of",
        "Order accordingly", "none"] := by
  constructor
  · unfold extractFromPdf
    rw [if_neg h]
    obtain ⟨kvs, hk⟩ := extractFromText_isObj c env text true
    dsimp only
    rw [hk]
    exact JVal.getStr_set_self kvs _ _
  · rcases hfs : lastCaseResult text with _ | v
    · simp
    · unfold lastCaseResult at hfs
      obtain ⟨b, _, hb⟩ := List.exists_of_findSome?_eq_some hfs
      dsimp only at hb
      rcases hfind : resultMap.find? (fun kv => pyIn kv.1 (pyLower b)) with _ | kv
      · rw [hfind] at hb
        cases hb
      · rw [hfind] at hb
        have hkv := List.mem_of_find?_eq_some hfind
        simp only [Option.map_some', Option.some_inj] at hb
        subst hb
        simp only [Option.getD_some]
        fin_cases hkv <;> simp

/-- Closed instance of `C10_case_result_override` on text ending in a
dismissal. -/
theorem C10_case_result_override_witness :
    JVal.getStr (extractFromPdf noKeyClient envAllRaised "Petition dismissed.").1
        "caseResult" =
      (lastCaseResult "Petition dismissed.").getD "none" :=
  (C10_case_result_override noKeyClient envAllRaised "Petition dismissed."
    (by decide)).1

/-- **C6 (amended)**: a client whose credential resolution yielded no API
key issues zero remote service calls on every input, and the returned
record is tagged `"Regex fallback"` for every non-blank input (a blank
input takes the error path, whose tag is `"Error"` — the deviation from
the claim as stated). -/
theorem C6_amended_no_network (env : RemoteEnv) (text : String) (useAi : Bool)
    (avail : Bool) (mr : Nat) :
    (extractFromText ⟨none, avail, mr⟩ env text useAi).2 = 0 ∧
    (pyStrip text ≠ "" →
      JVal.getStr (extractFromText ⟨none, avail, mr⟩ env text useAi).1
        "extraction_method" = "Regex fallback") := by
  unfold extractFromText
  split
  · next hcond =>
    refine ⟨rfl, fun hst => absurd ?_ hst⟩
    rcases (by simpa using hcond : text = "" ∨ pyStrip text = "") with h | h
    · rw [h]
      rfl
    · exact h
  · constructor
    · simp [Option.isSome_none]
    · intro _
      simp only [Option.isSome_none, Bool.and_false, Bool.false_and,
        Bool.false_eq_true, if_false]
      exact finishRegex_method _ _ _

/-- Closed instance of `C6_amended_no_network` on a non-blank input. -/
theorem C6_amended_no_network_witness :
    (extractFromText ⟨none, true, 3⟩ envAllRaised "x" true).2 = 0 ∧
    JVal.getStr (extractFromText ⟨none, true, 3⟩ envAllRaised "x" true).1
      "extraction_method" = "Regex fallback" :=
  ⟨(C6_amended_no_network envAllRaised "x" true true 3).1,
    (C6_amended_no_network envAllRaised "x" true true 3).2 (by decide)⟩

/-- **C6 (counterexample to the claim as stated)**: on the empty input a
credential-less client still issues zero remote calls, but the record's
`extraction_method` is `"Error"`, not the pattern-based tag the claim
promises for every input text. -/
theorem C6_claim_counterexample :
    (extractFromText ⟨none, true, 3⟩ envAllRaised "" true).2 = 0 ∧
    JVal.getStr (extractFromText ⟨none, true, 3⟩ envAllRaised "" true).1
        "extraction_method" = "Error" ∧
    JVal.getStr (extractFromText ⟨none, true, 3⟩ envAllRaised "" true).1
        "extraction_method" ≠ "Regex fallback" := by
  refine ⟨rfl, rfl, ?_⟩
  have hline : JVal.getStr (extractFromText ⟨none, true, 3⟩ envAllRaised "" true).1
      "extraction_method" = "Error" := rfl
  rw [hline]
  decide

/-- **C7**: when the remote reply contains no parseable JSON object,
`_extract_with_openai` returns the failure value (`None`) after exactly
one retried chat exchange — no second remote call, no exception — and
`extract_from_text` then falls back to the pattern cascade, tagging the
record `"Regex fallback"`. -/
theorem C7_malformed_reply_degrades (k : String) (mr : Nat) (env : RemoteEnv)
    (text reply : String)
    (hmain : env.mainOutcome = .reply reply)
    (hparse : parseJson (braceNarrow (pyStrip reply)) = none)
    (hlocal : env.statusLocallyLimited = false)
    (hstatus : env.statusKind ≠ .rateLimited)
    (htext : pyStrip text ≠ "") :
    (∀ t, extractWithOpenai ⟨some k, true, mr⟩ env t = (none, 1)) ∧
    JVal.getStr (extractFromText ⟨some k, true, mr⟩ env text true).1
      "extraction_method" = "Regex fallback" := by
  have htext' : text ≠ "" := by
    intro hh
    exact htext (by rw [hh]; rfl)
  have hopen : ∀ t, extractWithOpenai ⟨some k, true, mr⟩ env t = (none, 1) := by
    intro t
    unfold extractWithOpenai
    rw [hmain]
    dsimp only
    rw [hparse]
  refine ⟨hopen, ?_⟩
  unfold extractFromText
  rw [if_neg (by simp [htext, htext'])]
  simp only [Option.isSome_some, Bool.and_true, Bool.true_and, Bool.and_self,
    if_true, checkApiStatus, hlocal, Bool.false_eq_true, if_false]
  rw [if_neg (by simpa using hstatus)]
  rw [hopen (cleanText text)]
  exact finishRegex_method _ _ _

/-- Closed instance of `C7_malformed_reply_degrades` on the reply
`"no json"`. -/
theorem C7_malformed_reply_degrades_witness :
    extractWithOpenai ⟨some "sk", true, 3⟩
        ⟨.raised, .raised, false, .available, .reply "no json"⟩ "x" =
      (none, 1) ∧
    JVal.getStr (extractFromText ⟨some "sk", true, 3⟩
        ⟨.raised, .raised, false, .available, .reply "no json"⟩ "x" true).1
      "extraction_method" = "Regex fallback" :=
  ⟨(C7_malformed_reply_degrades "sk" 3 _ "x" "no json" rfl rfl rfl
      (by decide) (by decide)).1 "x",
    (C7_malformed_reply_degrades "sk" 3 _ "x" "no json" rfl rfl rfl
      (by decide) (by decide)).2⟩

/-- Whitespace collapsing emits only single spaces and non-whitespace
input characters. -/
theorem collapseWs_chars (l : List Char) :
    (∀ c ∈ collapseWs l, c = ' ' ∨ pyIsSpace c = false) ∧
    (∀ c ∈ collapseWsSkip l, c = ' ' ∨ pyIsSpace c = false) := by
  induction l with
  | nil => exact ⟨fun c hc => absurd hc (List.not_mem_nil c),
      fun c hc => absurd hc (List.not_mem_nil c)⟩
  | cons a as ih =>
    constructor
    · intro c hc
      rw [collapseWs] at hc
      by_cases ha : pyIsSpace a = true
      · rw [if_pos ha] at hc
        rcases List.mem_cons.mp hc with rfl | hc
        · exact Or.inl rfl
        · exact ih.2 c hc
      · rw [if_neg ha] at hc
        rcases List.mem_cons.mp hc with rfl | hc
        · exact Or.inr (Bool.not_eq_true _ |>.mp ha)
        · exact ih.1 c hc
    · intro c hc
      rw [collapseWsSkip] at hc
      by_cases ha : pyIsSpace a = true
      · rw [if_pos ha] at hc
        exact ih.2 c hc
      · rw [if_neg ha] at hc
        rcases List.mem_cons.mp hc with rfl | hc
        · exact Or.inr (Bool.not_eq_true _ |>.mp ha)
        · exact ih.1 c hc

theorem pyStripList_subset {c : Char} {l : List Char} (h : c ∈ pyStripList l) :
    c ∈ l := by
  unfold pyStripList at h
  rw [List.mem_reverse] at h
  have h2 := (List.dropWhile_sublist (p := pyIsSpace)
    (l := (l.dropWhile pyIsSpace).reverse)).subset h
  rw [List.mem_reverse] at h2
  exact (List.dropWhile_sublist (p := pyIsSpace) (l := l)).subset h2

theorem cleanChar_eq_newline {c : Char} (h : cleanChar c = '\n') : c = '\n' := by
  unfold cleanChar at h
  split_ifs at h <;> first | (exfalso; exact absurd h (by decide)) | exact h

/-- `_clean_text` output never contains a newline: every whitespace run,
newlines included, is collapsed to a single space. -/
theorem cleanText_no_newline (t : String) : '\n' ∉ (cleanText t).data := by
  unfold cleanText
  split
  · intro h
    exact absurd h (List.not_mem_nil _)
  · intro h
    have h2 := pyStripList_subset h
    obtain ⟨d, hd, hde⟩ := List.mem_map.mp h2
    have hdn : d = '\n' := cleanChar_eq_newline hde
    rw [hdn] at hd
    rcases (collapseWs_chars t.data).1 '\n' hd with h3 | h3
    · exact absurd h3 (by decide)
    · exact absurd h3 (by decide)

/-- **C2 (counterexample to the claim as stated)**: in
`"Ab\nVersus\nCd"` the word `Versus` stands alone on a line between the
party blocks `"Ab"` and `"Cd"`, yet `extract_from_text` with remote
extraction disabled returns the placeholders, not the blocks. -/
theorem C2_claim_counterexample :
    pySplitChar '\n' "Ab\nVersus\nCd" = ["Ab", "Versus", "Cd"] ∧
    JVal.getStr (extractFromText ⟨none, true, 3⟩ envAllRaised "Ab\nVersus\nCd"
        true).1 "appellant" ≠ "Ab" ∧
    JVal.getStr (extractFromText ⟨none, true, 3⟩ envAllRaised "Ab\nVersus\nCd"
        true).1 "respondent" ≠ "Cd" := by
  have ha : JVal.getStr (extractFromText ⟨none, true, 3⟩ envAllRaised
      "Ab\nVersus\nCd" true).1 "appellant" = "Appellant" := rfl
  have hr : JVal.getStr (extractFromText ⟨none, true, 3⟩ envAllRaised
      "Ab\nVersus\nCd" true).1 "respondent" = "Respondents" := rfl
  refine ⟨rfl, ?_, ?_⟩
  · rw [ha]
    decide
  · rw [hr]
    decide

/-- **C2 (amended)**: the newline-anchored `Versus` patterns do extract
the party blocks when run on the raw text, but `extract_from_text` first
collapses all whitespace — its cleaned text never contains a newline —
so through the pipeline those patterns cannot match and a text whose only
party markers are a stand-alone `Versus` line yields the placeholders
`"Appellant"`/`"Respondents"`. -/
theorem C2_amended_versus :
    (∀ t : String, '\n' ∉ (cleanText t).data) ∧
    extractAppellantRegex "Ab\nVersus\nCd" = "Ab" ∧
    extractRespondentRegex "Ab\nVersus\nCd" = "Cd" ∧
    JVal.getStr (extractFromText ⟨none, true, 3⟩ envAllRaised "Ab\nVersus\nCd"
        true).1 "appellant" = "Appellant" ∧
    JVal.getStr (extractFromText ⟨none, true, 3⟩ envAllRaised "Ab\nVersus\nCd"
        true).1 "respondent" = "Respondents" :=
  ⟨cleanText_no_newline, rfl, rfl, rfl, rfl⟩

/-- **C3 (counterexample to the claim as stated)**: neither judge
extractor returns `"John Doe"` on the scenario text — the captured
capitalisation is preserved. -/
theorem C3_claim_counterexample :
    extractJudgeRegex "HON'BLE MR. JUSTICE JOHN DOE" ≠ "John Doe" ∧
    enhancedExtractJudge "HON'BLE MR. JUSTICE JOHN DOE" ≠ some "John Doe" := by
  have h1 : extractJudgeRegex "HON'BLE MR. JUSTICE JOHN DOE" = "JOHN DOE" := rfl
  have h2 : enhancedExtractJudge "HON'BLE MR. JUSTICE JOHN DOE" =
      some "JOHN DOE" := rfl
  refine ⟨?_, ?_⟩
  · rw [h1]
    decide
  · rw [h2]
    decide

/-- **C3 (amended)**: on the scenario text both pattern-based judge
extractors strip the honorifics (`HON'BLE`, `MR.`, `JUSTICE`) and return
the remaining name verbatim, `"JOHN DOE"` (not title-cased). -/
theorem C3_amended_judge :
    extractJudgeRegex "HON'BLE MR. JUSTICE JOHN DOE" = "JOHN DOE" ∧
    enhancedExtractJudge "HON'BLE MR. JUSTICE JOHN DOE" = some "JOHN DOE" :=
  ⟨rfl, rfl⟩

/-! ## C1: the canonical-record key set -/

/-- The §6 key set common to every record the extractor returns
(spec-side checker apparatus, not a source translation). -/
def coreRecordKeys : List String :=
  ["docId", "appellant", "remarkable", "respondent", "judgeName",
    "judgementOrder", "judgementType", "caseResult",
    "doubleCouncilDetailRequest", "singleCouncilDetailRequest",
    "courtDetailRequest", "citationRequest",
    "additionalAppellantRespondentRequestList", "caseHistoryRequest",
    "headNoteRequestList", "caseTopics", "success", "extraction_method"]

/-- Spec-side checker: every top-level value other than
`singleCouncilDetailRequest` has no `null` leaf. -/
def nonNullExceptSingle (r : JVal) : Bool :=
  match r with
  | .obj kvs => kvs.all fun kv =>
      kv.1 == "singleCouncilDetailRequest" || JVal.leavesNonNull kv.2
  | _ => false

/-- Spec-side checker for the amended C1: all §6 core keys are present,
`singleCouncilDetailRequest` is the (only structural) null, and
`error`/`caseReferred` presence depends on the path — the error record
carries `error` and no `caseReferred`, both extraction records carry
`caseReferred` and no `error`. -/
def amendedSchemaOk (r : JVal) : Bool :=
  coreRecordKeys.all (fun k => r.hasKey k) &&
  r.isNullAt "singleCouncilDetailRequest" &&
  (if r.getStr "extraction_method" == "Error" then
    r.hasKey "error" && !r.hasKey "caseReferred"
  else
    r.hasKey "caseReferred" && !r.hasKey "error")

/-- A successful `_extract_with_openai` result is a formatted reply. -/
theorem extractWithOpenai_some_eq (c : Client) (env : RemoteEnv) (t : String)
    (r : JVal) (h : (extractWithOpenai c env t).1 = some r) :
    ∃ d, r = formatAiCore d := by
  unfold extractWithOpenai at h
  split at h
  · simp at h
  · split at h
    · simp at h
    · simp only [formatAiResult] at h
      split at h
      · simp at h
      · rw [Option.some_inj] at h
        exact ⟨_, h.symm⟩

theorem amendedSchemaOk_finish (t : String) (cr : List JVal) (jn : String) :
    amendedSchemaOk (((extractWithRegex t).set "caseReferred" (.arr cr)).set
      "judge_name" (.str jn)) = true := rfl

theorem amendedSchemaOk_ai (d : JVal) (cr : List JVal) (jn : String) :
    amendedSchemaOk (((formatAiCore d).set "caseReferred" (.arr cr)).set
      "judge_name" (.str jn)) = true := rfl

theorem leavesListNN_refObjs (ps : List (String × String)) :
    JVal.leavesListNN (ps.map fun p => refCaseObj p.1 p.2) = true := by
  induction ps with
  | nil => rfl
  | cons p rest ih =>
    simp only [List.map_cons, JVal.leavesListNN, refCaseObj,
      JVal.leavesNonNull, JVal.leavesObjNN, Bool.and_true, Bool.true_and]
    exact ih

theorem nonNull_finishRegex (t : String) (ps : List (String × String))
    (jn : String) :
    nonNullExceptSingle (((extractWithRegex t).set "caseReferred"
      (.arr (ps.map fun p => refCaseObj p.1 p.2))).set "judge_name"
      (.str jn)) = true := by
  show List.all _ _ = true
  simp [JVal.set, extractWithRegex, extractWithRegexKvs, JVal.setKV,
    List.all_cons, List.all_nil, JVal.leavesNonNull, JVal.leavesObjNN,
    JVal.leavesListNN, CaseInfo.toJVal, leavesListNN_refObjs]

/-- **C1 (amended)**: every record `extract_from_text` returns carries
all §6 core keys with `singleCouncilDetailRequest` always null (the spec
itself notes it is "always null in this scope"); the `error` key appears
exactly on the error path and the `caseReferred` key exactly on the two
extraction paths; and for a credential-less client every other leaf is
non-null. -/
theorem C1_amended_schema (c : Client) (env : RemoteEnv) (text : String)
    (useAi : Bool) :
    amendedSchemaOk (extractFromText c env text useAi).1 = true ∧
    (c.apiKey = none →
      nonNullExceptSingle (extractFromText c env text useAi).1 = true) := by
  constructor
  · unfold extractFromText
    split
    · decide
    · dsimp only
      split
      · split
        · exact amendedSchemaOk_finish _ _ _
        · rcases h : (extractWithOpenai c env (cleanText text)).1 with _ | r
          · simp only [h]
            exact amendedSchemaOk_finish _ _ _
          · simp only [h]
            obtain ⟨d, hd⟩ := extractWithOpenai_some_eq c env (cleanText text) r h
            subst hd
            split
            · exact amendedSchemaOk_ai _ _ _
            · exact amendedSchemaOk_finish _ _ _
      · exact amendedSchemaOk_finish _ _ _
  · intro hkey
    unfold extractFromText
    split
    · decide
    · simp only [hkey, Option.isSome_none, Bool.and_false, Bool.false_and,
        Bool.false_eq_true, if_false, List.isEmpty_nil]
      exact nonNull_finishRegex _ _ _

/-- Closed instance of `C1_amended_schema` for the no-key client on a
non-blank input. -/
theorem C1_amended_schema_witness :
    noKeyClient.apiKey = none ∧
    nonNullExceptSingle (extractFromText noKeyClient envAllRaised "x" true).1 =
      true :=
  ⟨rfl, (C1_amended_schema noKeyClient envAllRaised "x" true).2 rfl⟩

/-- **C1 (counterexample to the claim as stated)**: the empty-text record
has no `caseReferred` key at all, and its `singleCouncilDetailRequest`
leaf is null — so not every §6 key is present with non-null leaves. -/
theorem C1_claim_counterexample :
    JVal.hasKey (extractFromText ⟨none, true, 3⟩ envAllRaised "" true).1
        "caseReferred" = false ∧
    JVal.isNullAt (extractFromText ⟨none, true, 3⟩ envAllRaised "" true).1
        "singleCouncilDetailRequest" = true := ⟨rfl, rfl⟩

end LegalExtract
